import Mathlib

/-!
# Formal model of the "The Binding Of Sigma" simulation core

This file is a shallow embedding, in Lean 4, of the gameplay core of the
repository (src/App.tsx together with src/constants.ts): the geometry
utilities, the 8-way facing computation, the dungeon generator, the item
pickup effects, and the per-frame simulation step `update`.

Modelling conventions:
* JavaScript numbers are modelled as real numbers (`ℝ`); `Math.sqrt`,
  `Math.atan2`, `Math.cos`/`Math.sin` and `Math.floor` become `Real.sqrt`,
  `Complex.arg`, `Real.cos`/`Real.sin` and `Int.floor`.
* Every call to `Math.random()` / `Date.now()` is an oracle value supplied
  through an explicit record of externals, indexed by call site, so the
  nondeterministic behaviour of the code is modelled as a function of those
  oracles.
* React state updates plus the mutable `useRef` shadows in App.tsx mean the
  per-frame `update` function is, observably, a state transformer on
  (gameState, player, rooms, currentRoomIndex, projectiles, lastShotTime).
  JavaScript object aliasing matters and is modelled faithfully: the room,
  enemy, item and projectile objects held in React state are the very
  objects mutated in place during a frame, so in-place mutations (enemy
  health/cooldown/active flags, projectile hit ledgers, the vacated room's
  `cleared` flag, item deactivation, spawned item pushes) are committed
  even on code paths that skip the corresponding `setX` call, while fields
  only written into fresh spread copies (enemy positions, projectile
  positions) are committed only where the copies are written back.
* The entity/room record types come from the repository's `types.ts`
  (imported by App.tsx but not vendored here); their fields are exactly the
  ones App.tsx reads and writes, with string-literal unions rendered as
  inductive types.
* Display-only effects (modal messages, asynchronously fetched description
  strings, renderer props) are outside the model.
-/

namespace TBOS

open Classical
noncomputable section

/-! ## Constants (src/constants.ts) -/

def CANVAS_WIDTH : ℝ := 800
def CANVAS_HEIGHT : ℝ := 600
def PLAYER_SIZE : ℝ := 30
def PROJECTILE_SIZE : ℝ := 10
def ENEMY_SIZE : ℝ := 35
def ITEM_SIZE : ℝ := 25
def PLAYER_BASE_SPEED : ℝ := 3.5
def PROJECTILE_SPEED : ℝ := 7
def ENEMY_SPEED : ℝ := 1.5

/-! ## Data model (types.ts, as used by App.tsx) -/

/-- A 2D vector, used for positions and velocities. -/
structure Vector2 where
  x : ℝ
  y : ℝ

/-- The `type` tag of an entity. -/
inductive EntityType
  | PLAYER
  | ENEMY
  | BOSS
  | PROJECTILE
  | ITEM
deriving DecidableEq

/-- Enemy behavioural variants. -/
inductive EnemyVariant
  | BASIC
  | SHOOTER
  | DASHER
  | TANK
deriving DecidableEq

/-- Permanent player upgrade flags (string literals in the source). -/
inductive Modifier
  | TRIPLE_SHOT
  | PIERCING
  | BIG_TEARS
deriving DecidableEq

/-- The six item kinds (`ITEM_TYPES` in src/constants.ts). -/
inductive ItemType
  | HEALTH
  | DAMAGE
  | SPEED
  | TRIPLE_SHOT
  | PIERCING
  | BIG_TEARS
deriving DecidableEq

def ITEM_TYPES : List ItemType :=
  [ItemType.HEALTH, ItemType.DAMAGE, ItemType.SPEED,
   ItemType.TRIPLE_SHOT, ItemType.PIERCING, ItemType.BIG_TEARS]

/-- Owner tag of a projectile. -/
inductive Owner
  | PLAYER
  | ENEMY
deriving DecidableEq

/-- The shared entity record (player, enemies, boss). `variant` is `none`
for the player and the boss; `attackCooldown` models the optional source
field with 0 standing for the JavaScript `undefined` (the source reads it
as `enemy.attackCooldown || 0`). -/
structure Entity where
  id : String
  type : EntityType
  variant : Option EnemyVariant := none
  position : Vector2
  velocity : Vector2
  size : ℝ
  color : String
  health : ℝ
  maxHealth : ℝ
  damage : ℝ
  speed : ℝ
  isActive : Bool
  modifiers : List Modifier
  facing : ℤ := 0
  attackCooldown : ℝ := 0

/-- A projectile (`Projectile extends Entity` in types.ts, keeping the
fields App.tsx uses). -/
structure Projectile where
  id : String
  owner : Owner
  position : Vector2
  velocity : Vector2
  size : ℝ
  color : String
  health : ℝ
  maxHealth : ℝ
  damage : ℝ
  speed : ℝ
  isActive : Bool
  piercing : Bool
  hitIds : List String
  modifiers : List Modifier

/-- An item pickup. -/
structure Item where
  id : String
  itemType : ItemType
  position : Vector2
  velocity : Vector2
  size : ℝ
  color : String
  health : ℝ
  maxHealth : ℝ
  damage : ℝ
  speed : ℝ
  isActive : Bool
  name : String
  description : String
  statDescription : String
  modifiers : List Modifier

/-- Doors of a room (the source's partial record `doors: {[Direction]:
boolean}` starts as `{}`, i.e. all four flags false). -/
structure Doors where
  up : Bool
  down : Bool
  left : Bool
  right : Bool

/-- A dungeon room. -/
structure Room where
  id : String
  gridX : ℤ
  gridY : ℤ
  cleared : Bool
  enemies : List Entity
  items : List Item
  doors : Doors
  isBossRoom : Bool
  isItemRoom : Bool

/-- Top-level session states. -/
inductive GameState
  | MENU
  | PLAYING
  | ITEM_PICKUP_ANIMATION
  | VICTORY
  | GAME_OVER
deriving DecidableEq

/-! ## Geometry utilities (App.tsx lines 17-34) -/

/-- Euclidean distance between two points (`getDistance`). -/
def getDistance (a b : Vector2) : ℝ :=
  Real.sqrt ((b.x - a.x) ^ 2 + (b.y - a.y) ^ 2)

/-- The position/size view of an entity that `checkCollision` reads.
JavaScript is structurally typed, so the source function is applied to
entities, projectiles and items alike; `Body` captures the fields used. -/
structure Body where
  position : Vector2
  size : ℝ

def Entity.body (e : Entity) : Body := ⟨e.position, e.size⟩

def Projectile.body (p : Projectile) : Body := ⟨p.position, p.size⟩

def Item.body (i : Item) : Body := ⟨i.position, i.size⟩

/-- Circle collision predicate (`checkCollision`): strict inequality
against the sum of the radii. -/
def checkCollision (a b : Body) : Prop :=
  getDistance a.position b.position < (a.size / 2 + b.size / 2)

/-! ## Facing computation (App.tsx lines 36-51) -/

/-- JavaScript `Math.atan2(y, x)`: the argument of the complex number
`x + iy`, in `(-π, π]`. -/
def atan2 (y x : ℝ) : ℝ := Complex.arg ⟨x, y⟩

/-- Truncation toward zero, as used by the JavaScript `%` operator. -/
def rtrunc (t : ℝ) : ℤ := if 0 ≤ t then ⌊t⌋ else ⌈t⌉

/-- JavaScript remainder `x % y` on numbers (sign follows the dividend). -/
def jsMod (x y : ℝ) : ℝ := x - y * (rtrunc (x / y) : ℝ)

/-- Angle in degrees normalised to `[0, 360)` (the `deg` computation). -/
def degOf (angle : ℝ) : ℝ :=
  if angle * (180 / Real.pi) < 0 then angle * (180 / Real.pi) + 360
  else angle * (180 / Real.pi)

/-- The 8-way direction index (0-7) from a velocity vector
(`getFacingFromVelocity`).  Near-zero vectors keep the current facing. -/
def getFacingFromVelocity (vx vy : ℝ) (currentFacing : ℤ) : ℤ :=
  if |vx| < 0.1 ∧ |vy| < 0.1 then currentFacing
  else (⌊jsMod (degOf (atan2 vy vx) + 22.5) 360 / 45⌋ - 2 + 8) % 8

/-! ## Item pickup effects (App.tsx lines 401-435, `handleItemPickup`)

`handleItemPickup` also drives display state (modal text, the pickup
animation game state); its permanent effect on the player is the
`setPlayer` updater modelled here. -/

/-- The player mutation performed by `handleItemPickup` for a picked-up
item. -/
def handleItemPickupPlayer (item : Item) (p : Entity) : Entity :=
  let newP := p
  let newP :=
    if item.itemType = ItemType.HEALTH then
      { newP with maxHealth := newP.maxHealth + 2, health := newP.maxHealth + 2 }
    else newP
  let newP :=
    if item.itemType = ItemType.DAMAGE then
      { newP with damage := newP.damage + 1.5 }
    else newP
  let newP :=
    if item.itemType = ItemType.SPEED then
      { newP with speed := newP.speed + 0.5 }
    else newP
  let newP :=
    if item.itemType = ItemType.TRIPLE_SHOT then
      { newP with modifiers := newP.modifiers ++ [Modifier.TRIPLE_SHOT] }
    else newP
  let newP :=
    if item.itemType = ItemType.PIERCING then
      { newP with modifiers := newP.modifiers ++ [Modifier.PIERCING] }
    else newP
  let newP :=
    if item.itemType = ItemType.BIG_TEARS then
      { newP with damage := newP.damage + 2,
                  modifiers := newP.modifiers ++ [Modifier.BIG_TEARS] }
    else newP
  newP

/-! ## Dungeon generation (App.tsx lines 75-273, `generateDungeon`)

Randomness is supplied by an oracle record: each `Math.random()` call site
reads an oracle value (indexed by loop iteration, room coordinate or enemy
index).  The shuffled direction list of each growth iteration is supplied
directly by the oracle (any list of directions, a superset of the possible
shuffles of the four axis directions, which only makes the theorems below
stronger).  The `while` loop is modelled with explicit fuel: the source
loop terminates with probability 1 but not unconditionally, and every
finite prefix of its behaviour is an instance of some fuel value. -/

/-- One of the four growth directions (`dirs` in the source). -/
inductive GridDir
  | up
  | down
  | left
  | right
deriving DecidableEq

/-- Move one grid cell in a direction (`nx = parent.x + dir.dx` etc.). -/
def gstep : GridDir → ℤ × ℤ → ℤ × ℤ
  | GridDir.up, (x, y) => (x, y - 1)
  | GridDir.down, (x, y) => (x, y + 1)
  | GridDir.left, (x, y) => (x - 1, y)
  | GridDir.right, (x, y) => (x + 1, y)

/-- Oracle values for the random draws of `generateDungeon`. -/
structure GenOracle where
  parentRoll : ℕ → ℕ
  dirOrder : ℕ → List GridDir
  itemRoll : ℝ
  itemTypeRoll : ℤ × ℤ → ℝ
  countRoll : ℤ × ℤ → ℝ
  variantRoll : ℤ × ℤ → ℕ → ℝ
  posXRoll : ℤ × ℤ → ℕ → ℝ
  posYRoll : ℤ × ℤ → ℕ → ℝ
  cooldownRoll : ℤ × ℤ → ℕ → ℝ

/-- The string key of a grid cell (the source keys its `visited` map by
the string `x,y`; the encoding is injective so the list of cells in
insertion order carries the same information). -/
def roomId (p : ℤ × ℤ) : String := toString p.1 ++ "," ++ toString p.2

/-- The room-placement `while` loop.  `visited` and `candidates` are kept
in insertion order, starting from the origin. -/
def grow (o : GenOracle) (target : ℕ) :
    ℕ → List (ℤ × ℤ) → List (ℤ × ℤ) → List (ℤ × ℤ)
  | 0, visited, _ => visited
  | Nat.succ fuel, visited, candidates =>
    if visited.length < target then
      if candidates.isEmpty then visited
      else
        let parent := candidates.getD (o.parentRoll fuel % candidates.length) (0, 0)
        match (o.dirOrder fuel).find? (fun d => !(visited.contains (gstep d parent))) with
        | some d =>
          grow o target fuel (visited ++ [gstep d parent]) (candidates ++ [gstep d parent])
        | none => grow o target fuel visited candidates
    else visited

/-- The boss-room scan: the furthest (Manhattan distance) non-origin room,
first occurrence in insertion order winning ties. -/
def bossScan : List (ℤ × ℤ) → ℤ → String → String
  | [], _, bid => bid
  | p :: rest, maxDist, bid =>
    if |p.1| + |p.2| > maxDist ∧ roomId p ≠ "0,0" then
      bossScan rest (|p.1| + |p.2|) (roomId p)
    else bossScan rest maxDist bid

def bossIdOf (visited : List (ℤ × ℤ)) : String := bossScan visited (-1) ""

/-- Random item-room pick among non-start, non-boss rooms. -/
def itemRoomIdOf (o : GenOracle) (visited : List (ℤ × ℤ)) (bossId : String) : String :=
  let possible := (visited.map roomId).filter (fun id => id != "0,0" && id != bossId)
  if 0 < possible.length then
    possible.getD (Int.toNat ⌊o.itemRoll * (possible.length : ℝ)⌋) ""
  else ""

/-- Item display names assigned in `generateDungeon` / `spawnItem` (every
branch of the if-chain overwrites the default, so the table is total).
The source name of the PIERCING item contains an apostrophe, omitted
here. -/
def itemName : ItemType → String
  | ItemType.HEALTH => "Lunchly Meal"
  | ItemType.DAMAGE => "Grimace Shake"
  | ItemType.SPEED => "Energy Drink"
  | ItemType.TRIPLE_SHOT => "The Squad"
  | ItemType.PIERCING => "Fanums Fork"
  | ItemType.BIG_TEARS => "Mogger Mode"

def itemStatDesc : ItemType → String
  | ItemType.HEALTH => "Health Up + Full Heal"
  | ItemType.DAMAGE => "Damage +1.5"
  | ItemType.SPEED => "Speed +0.5"
  | ItemType.TRIPLE_SHOT => "Shoots 3 tears at once"
  | ItemType.PIERCING => "Shots pass through enemies"
  | ItemType.BIG_TEARS => "Massive Tears + Damage Up"

/-- The single item placed at the centre of the item room. -/
def mkGenItem (o : GenOracle) (p : ℤ × ℤ) : Item :=
  let randomType :=
    ITEM_TYPES.getD (Int.toNat ⌊o.itemTypeRoll p * (ITEM_TYPES.length : ℝ)⌋)
      ItemType.HEALTH
  { id := "item-" ++ roomId p
    itemType := randomType
    position := ⟨CANVAS_WIDTH / 2, CANVAS_HEIGHT / 2⟩
    velocity := ⟨0, 0⟩
    size := ITEM_SIZE
    color := "gold"
    health := 1, maxHealth := 1, damage := 0, speed := 0
    isActive := true
    name := itemName randomType
    description := "Free loot"
    statDescription := itemStatDesc randomType
    modifiers := [] }

/-- The boss entity of the boss room. -/
def mkBoss (p : ℤ × ℤ) : Entity :=
  { id := "boss-" ++ roomId p
    type := EntityType.BOSS
    variant := none
    position := ⟨CANVAS_WIDTH / 2, 150⟩
    velocity := ⟨0, 0⟩
    size := ENEMY_SIZE * 2.5
    color := "darkred"
    health := 150, maxHealth := 150, damage := 2
    speed := ENEMY_SPEED * 1.5
    isActive := true
    modifiers := []
    attackCooldown := 0 }

/-- One randomly rolled enemy of a normal room (variant bands and stat
multipliers of the source). -/
def mkGenEnemy (o : GenOracle) (p : ℤ × ℤ) (j : ℕ) : Entity :=
  let distFactor : ℝ := ((|p.1| + |p.2| : ℤ) : ℝ)
  let rand := o.variantRoll p j
  let hp0 : ℝ := 10 + distFactor * 2
  let variant :=
    if rand > 0.85 then EnemyVariant.TANK
    else if rand > 0.65 then EnemyVariant.SHOOTER
    else if rand > 0.5 then EnemyVariant.DASHER
    else EnemyVariant.BASIC
  let hp :=
    if rand > 0.85 then hp0 * 2
    else if rand > 0.65 then hp0 * 0.7
    else if rand > 0.5 then hp0 * 0.8
    else hp0
  let spd :=
    if rand > 0.85 then ENEMY_SPEED * 0.6
    else if rand > 0.65 then ENEMY_SPEED * 0.8
    else if rand > 0.5 then ENEMY_SPEED * 1.2
    else ENEMY_SPEED
  let sz := if rand > 0.85 then ENEMY_SIZE * 1.3 else ENEMY_SIZE
  let col :=
    if rand > 0.85 then "green"
    else if rand > 0.65 then "purple"
    else if rand > 0.5 then "yellow"
    else "red"
  { id := "enemy-" ++ roomId p ++ "-" ++ toString j
    type := EntityType.ENEMY
    variant := some variant
    position := ⟨100 + o.posXRoll p j * (CANVAS_WIDTH - 200),
                 100 + o.posYRoll p j * (CANVAS_HEIGHT - 200)⟩
    velocity := ⟨0, 0⟩
    size := sz
    color := col
    health := hp
    maxHealth := 10
    damage := 1
    speed := spd
    isActive := true
    modifiers := []
    attackCooldown := o.cooldownRoll p j * 2000
    facing := 0 }

/-- Enemy count of a normal room:
`floor(random()*3) + 1 + floor(distFactor/4)`. -/
def enemyCountOf (o : GenOracle) (p : ℤ × ℤ) : ℕ :=
  Int.toNat (⌊o.countRoll p * 3⌋ + 1 + (|p.1| + |p.2|) / 4)

/-- Build one room of the dungeon (the body of the `visited.forEach`). -/
def buildRoom (o : GenOracle) (bossId itemRoomId : String) (p : ℤ × ℤ) : Room :=
  let id := roomId p
  let isBoss := id == bossId
  let isItemRoom := id == itemRoomId
  let isStart := id == "0,0"
  let enemies : List Entity :=
    if isItemRoom then []
    else if isBoss then [mkBoss p]
    else if isStart then []
    else (List.range (enemyCountOf o p)).map (mkGenEnemy o p)
  let items : List Item := if isItemRoom then [mkGenItem o p] else []
  { id := id
    gridX := p.1
    gridY := p.2
    cleared := isStart || isItemRoom
    enemies := enemies
    items := items
    doors := ⟨false, false, false, false⟩
    isBossRoom := isBoss
    isItemRoom := isItemRoom }

/-- Whether any placed room sits at a grid coordinate (the `rooms.find`
calls of the door-linking pass, which read only the coordinates). -/
def hasRoomAt (rooms : List Room) (gx gy : ℤ) : Bool :=
  rooms.any (fun n => n.gridX == gx && n.gridY == gy)

/-- Door flags of one room against a fixed room list. -/
def linkOne (rooms : List Room) (r : Room) : Room :=
  { r with doors :=
      { up := hasRoomAt rooms r.gridX (r.gridY - 1)
        down := hasRoomAt rooms r.gridX (r.gridY + 1)
        left := hasRoomAt rooms (r.gridX - 1) r.gridY
        right := hasRoomAt rooms (r.gridX + 1) r.gridY } }

/-- The door-linking pass (the source mutates `doors` in place while
iterating, but only ever reads the unchanging coordinates, so it equals
this map over the original list). -/
def linkDoors (rooms : List Room) : List Room :=
  rooms.map (linkOne rooms)

/-- The placed grid cells, starting from the origin. -/
def genVisited (o : GenOracle) (fuel targetCount : ℕ) : List (ℤ × ℤ) :=
  grow o targetCount fuel [(0, 0)] [(0, 0)]

/-- The populated room list before the door-linking pass. -/
def genBase (o : GenOracle) (fuel targetCount : ℕ) : List Room :=
  (genVisited o fuel targetCount).map
    (buildRoom o (bossIdOf (genVisited o fuel targetCount))
      (itemRoomIdOf o (genVisited o fuel targetCount)
        (bossIdOf (genVisited o fuel targetCount))))

/-- The full generator: grow the placement, pick boss and item rooms,
populate, link doors. -/
def generateDungeon (o : GenOracle) (fuel : ℕ) (targetCount : ℕ) : List Room :=
  linkDoors (genBase o fuel targetCount)

/-! ## The simulation step (App.tsx lines 437-763, `update`)

Inputs sampled by the frame: the elapsed `dt`, `Date.now()`, the combined
keyboard/joystick input refs, and an oracle value for each `Math.random()`
call site (damage chance, per-enemy drop roll and spawned item type,
per-enemy projectile id). -/

/-- The keyboard keys `update` reads. -/
structure Keys where
  keyW : Bool
  keyA : Bool
  keyS : Bool
  keyD : Bool
  arrowUp : Bool
  arrowDown : Bool
  arrowLeft : Bool
  arrowRight : Bool

/-- Per-frame external inputs and random oracles. -/
structure Externals where
  dt : ℝ
  now : ℝ
  moveInput : Vector2
  shootInput : Vector2
  keys : Keys
  damageRoll : ℝ
  dropRoll : ℕ → ℝ
  itemRoll : ℕ → ℝ
  projIdRoll : ℕ → String

/-- The gameplay state read and written by one frame. -/
structure SimState where
  gameState : GameState
  player : Entity
  rooms : List Room
  currentRoomIndex : ℕ
  projectiles : List Projectile
  lastShotTime : ℝ

/-- Whether every enemy of a list is inactive
(`enemies.every(e => !e.isActive)`). -/
def allInactive (es : List Entity) : Bool := es.all (fun en => !en.isActive)

/-- Combined movement direction: WASD added onto the joystick vector, then
normalised when the magnitude exceeds 1 and zeroed inside the 0.1
deadzone. -/
def moveDir (e : Externals) : ℝ × ℝ :=
  let dx := e.moveInput.x + (if e.keys.keyA then -1 else 0) + (if e.keys.keyD then 1 else 0)
  let dy := e.moveInput.y + (if e.keys.keyW then -1 else 0) + (if e.keys.keyS then 1 else 0)
  let len := Real.sqrt (dx * dx + dy * dy)
  if len > 1.0 then (dx / len, dy / len)
  else if len < 0.1 then (0, 0)
  else (dx, dy)

/-- Wall/door clamp of the tentative player position (the four sequential
`if` statements; the door-zone flags are computed from the unclamped
position). -/
def clampPlayer (room : Room) (psize : ℝ) (isRoomCleared : Bool) (nx0 ny0 : ℝ) : ℝ × ℝ :=
  let minSafe := 50 + psize / 2
  let maxSafeX := CANVAS_WIDTH - minSafe
  let maxSafeY := CANVAS_HEIGHT - minSafe
  let inV := |nx0 - CANVAS_WIDTH / 2| < 60
  let inH := |ny0 - CANVAS_HEIGHT / 2| < 60
  let ny1 := if ny0 < minSafe ∧ ¬(isRoomCleared ∧ room.doors.up ∧ inV) then minSafe else ny0
  let ny2 := if ny1 > maxSafeY ∧ ¬(isRoomCleared ∧ room.doors.down ∧ inV) then maxSafeY else ny1
  let nx1 := if nx0 < minSafe ∧ ¬(isRoomCleared ∧ room.doors.left ∧ inH) then minSafe else nx0
  let nx2 := if nx1 > maxSafeX ∧ ¬(isRoomCleared ∧ room.doors.right ∧ inH) then maxSafeX else nx1
  (nx2, ny2)

/-- The clamped tentative player position of this frame. -/
def playerNext (e : Externals) (s : SimState) (room : Room) : ℝ × ℝ :=
  let d := moveDir e
  clampPlayer room s.player.size (room.cleared || allInactive room.enemies)
    (s.player.position.x + d.1 * s.player.speed)
    (s.player.position.y + d.2 * s.player.speed)

/-- Shoot direction: arrow keys override the shoot joystick componentwise
through an `else if` chain. -/
def shootDir (e : Externals) : ℝ × ℝ :=
  let sx := e.shootInput.x
  let sy := e.shootInput.y
  if e.keys.arrowUp then (sx, -1)
  else if e.keys.arrowDown then (sx, 1)
  else if e.keys.arrowLeft then (-1, sy)
  else if e.keys.arrowRight then (1, sy)
  else (sx, sy)

/-- A player tear spawned at the (clamped) player position. -/
def mkPlayerShot (player : Entity) (nx ny angle : ℝ) (idx : ℕ) : Projectile :=
  { id := "p-" ++ toString idx
    owner := Owner.PLAYER
    position := ⟨nx, ny⟩
    velocity := ⟨Real.cos angle * PROJECTILE_SPEED, Real.sin angle * PROJECTILE_SPEED⟩
    size := if Modifier.BIG_TEARS ∈ player.modifiers then PROJECTILE_SIZE * 2.2
            else PROJECTILE_SIZE
    color := "blue"
    health := 1, maxHealth := 1
    damage := player.damage
    speed := PROJECTILE_SPEED
    isActive := true
    piercing := Modifier.PIERCING ∈ player.modifiers
    hitIds := []
    modifiers := [] }

/-- The shooting sub-step: fire-rate gate, deadzone, triple-shot spread.
Returns the extended projectile list and the new `lastShotTimeRef`. -/
def shootPhase (e : Externals) (s : SimState) (nx ny : ℝ) : List Projectile × ℝ :=
  if e.now - s.lastShotTime > 400 then
    let sd := shootDir e
    if Real.sqrt (sd.1 * sd.1 + sd.2 * sd.2) > 0.4 then
      let baseAngle := atan2 sd.2 sd.1
      let angles :=
        if Modifier.TRIPLE_SHOT ∈ s.player.modifiers then
          [baseAngle - 0.25, baseAngle, baseAngle + 0.25]
        else [baseAngle]
      (s.projectiles ++ angles.enum.map (fun ia => mkPlayerShot s.player nx ny ia.2 ia.1),
       e.now)
    else (s.projectiles, s.lastShotTime)
  else (s.projectiles, s.lastShotTime)

/-- Context shared by every enemy of the frame. -/
structure EnemyCtx where
  ext : Externals
  room : Room
  player : Entity
  nx : ℝ
  ny : ℝ

/-- A projectile fired by a SHOOTER enemy at the player. -/
def mkEnemyShot (c : EnemyCtx) (j : ℕ) (en : Entity) (dx dy : ℝ) : Projectile :=
  let angle := atan2 dy dx
  { id := c.ext.projIdRoll j
    owner := Owner.ENEMY
    position := ⟨en.position.x, en.position.y⟩
    velocity := ⟨Real.cos angle * 4, Real.sin angle * 4⟩
    size := PROJECTILE_SIZE
    color := "red"
    health := 1, maxHealth := 1
    damage := 1
    speed := 4
    isActive := true
    piercing := false
    hitIds := []
    modifiers := [] }

/-- Variant AI (SHOOTER band-keeping and firing, DASHER three-phase cycle,
chase otherwise): returns the velocity, the updated cooldown and any
projectile fired this frame. -/
def enemyVel (c : EnemyCtx) (j : ℕ) (en : Entity) (cd0 dx dy dist : ℝ) :
    (ℝ × ℝ) × ℝ × List Projectile :=
  if en.variant = some EnemyVariant.SHOOTER then
    let v :=
      if dist > 250 then (dx / dist * en.speed, dy / dist * en.speed)
      else if dist < 150 then (-(dx / dist) * en.speed, -(dy / dist) * en.speed)
      else (0, 0)
    if cd0 ≤ 0 then (v, 2000, [mkEnemyShot c j en dx dy])
    else (v, cd0, [])
  else if en.variant = some EnemyVariant.DASHER then
    let cd1 := if cd0 ≤ 0 then 2500 else cd0
    let v :=
      if cd1 > 600 then (dx / dist * en.speed, dy / dist * en.speed)
      else if cd1 > 200 then (0, 0)
      else (dx / dist * (en.speed * 4), dy / dist * (en.speed * 4))
    (v, cd1, [])
  else
    (if dist > 5 then (dx / dist * en.speed, dy / dist * en.speed) else (0, 0), cd0, [])

/-- The enemy wall clamp (lines 623-627): sequential one-sided clamps that
keep enemies inside `[50, 750] × [50, 550]` with no door exception. -/
def clampEnemy (x y : ℝ) : ℝ × ℝ :=
  let x1 := if x < 50 then 50 else x
  let x2 := if x1 > CANVAS_WIDTH - 50 then CANVAS_WIDTH - 50 else x1
  let y1 := if y < 50 then 50 else y
  let y2 := if y1 > CANVAS_HEIGHT - 50 then CANVAS_HEIGHT - 50 else y1
  (x2, y2)

/-- The player-projectile-versus-enemy loop (lines 634-653).  The fold
threads the enemy's health and its (knockback-displaced) position through
the projectile list, returning the updated projectiles together with the
final health and position. -/
def applyPlayerProjectiles (en : Entity) (vx vy : ℝ) :
    List Projectile → ℝ → ℝ → ℝ → List Projectile × ℝ × ℝ × ℝ
  | [], h, eX, eY => ([], h, eX, eY)
  | p :: rest, h, eX, eY =>
    if p.isActive ∧ p.owner = Owner.PLAYER then
      if p.piercing ∧ en.id ∈ p.hitIds then
        let r := applyPlayerProjectiles en vx vy rest h eX eY
        (p :: r.1, r.2)
      else if checkCollision p.body ⟨⟨eX, eY⟩, en.size⟩ then
        let h1 := h - p.damage
        let p1 := if p.piercing then { p with hitIds := p.hitIds ++ [en.id] }
                  else { p with isActive := false }
        let k : ℝ × ℝ :=
          if en.variant ≠ some EnemyVariant.TANK ∧ en.type ≠ EntityType.BOSS then
            (eX - vx * 6, eY - vy * 6)
          else (eX, eY)
        let r := applyPlayerProjectiles en vx vy rest h1 k.1 k.2
        (p1 :: r.1, r.2)
      else
        let r := applyPlayerProjectiles en vx vy rest h eX eY
        (p :: r.1, r.2)
    else
      let r := applyPlayerProjectiles en vx vy rest h eX eY
      (p :: r.1, r.2)

/-- An item dropped on enemy death (`spawnItem`, whose queued state update
nets out to appending the item to the current room's item list). -/
def mkDropItem (e : Externals) (j : ℕ) (x y : ℝ) : Item :=
  let randomType :=
    ITEM_TYPES.getD (Int.toNat ⌊e.itemRoll j * (ITEM_TYPES.length : ℝ)⌋) ItemType.HEALTH
  { id := "item-" ++ toString j
    itemType := randomType
    position := ⟨x, y⟩
    velocity := ⟨0, 0⟩
    size := ITEM_SIZE
    color := "gold"
    health := 1, maxHealth := 1, damage := 0, speed := 0
    isActive := true
    name := itemName randomType
    description := "Loading rizz..."
    statDescription := itemStatDesc randomType
    modifiers := [] }

/-- The result of processing one enemy. -/
structure EnemyOut where
  enemy : Entity
  projs : List Projectile
  hit : Prop
  spawned : List Item
  bossDied : Prop

/-- Vector from the enemy to the (clamped tentative) player position. -/
def enemyDelta (c : EnemyCtx) (en : Entity) : ℝ × ℝ :=
  (c.nx - en.position.x, c.ny - en.position.y)

/-- The variant AI outcome of this frame for one enemy: velocity, updated
cooldown, fired projectiles. -/
def enemyVelOf (c : EnemyCtx) (j : ℕ) (en : Entity) : (ℝ × ℝ) × ℝ × List Projectile :=
  enemyVel c j en (en.attackCooldown - c.ext.dt) (enemyDelta c en).1 (enemyDelta c en).2
    (Real.sqrt ((enemyDelta c en).1 * (enemyDelta c en).1 +
      (enemyDelta c en).2 * (enemyDelta c en).2))

/-- The enemy position after AI movement and the wall clamp, before any
projectile knockback (lines 620-627). -/
def enemyMovedPos (c : EnemyCtx) (j : ℕ) (en : Entity) : ℝ × ℝ :=
  clampEnemy (en.position.x + (enemyVelOf c j en).1.1)
    (en.position.y + (enemyVelOf c j en).1.2)

/-- One iteration of the enemy map (lines 538-669): cooldown decay, AI
movement, wall clamp, contact check, projectile hits with knockback, and
death handling. -/
def enemyStep (c : EnemyCtx) (projs : List Projectile) (j : ℕ) (en : Entity) : EnemyOut :=
  if ¬ en.isActive then ⟨en, projs, False, [], False⟩
  else
    let vcf := enemyVelOf c j en
    let vx := vcf.1.1
    let vy := vcf.1.2
    let cd := vcf.2.1
    let projs1 := projs ++ vcf.2.2
    let enemyFacing := getFacingFromVelocity vx vy en.facing
    let pos0 := enemyMovedPos c j en
    let hit := checkCollision ⟨⟨c.nx, c.ny⟩, c.player.size⟩ ⟨⟨pos0.1, pos0.2⟩, en.size⟩
    let r := applyPlayerProjectiles en vx vy projs1 en.health pos0.1 pos0.2
    let projs2 := r.1
    let health := r.2.1
    let eX := r.2.2.1
    let eY := r.2.2.2
    let died := health ≤ 0
    let spawned :=
      (if died ∧ ¬c.room.isBossRoom ∧ ¬c.room.isItemRoom ∧ c.ext.dropRoll j > 0.75 then
        [mkDropItem c.ext j eX eY]
      else []) ++
      (if died ∧ c.room.isBossRoom then
        [mkDropItem c.ext j (CANVAS_WIDTH / 2) (CANVAS_HEIGHT / 2)]
      else [])
    ⟨{ en with health := health
               attackCooldown := cd
               isActive := if died then false else en.isActive
               position := ⟨eX, eY⟩
               facing := enemyFacing },
     projs2, hit, spawned, died ∧ c.room.isBossRoom⟩

/-- The in-place mutations on the shared enemy object (health, cooldown,
active flag) without the position/facing that only live in the fresh
spread copy; this is what rooms not written back by `setRooms` still
observe through aliasing. -/
def aliasEnemy (old new : Entity) : Entity :=
  { old with health := new.health
             attackCooldown := new.attackCooldown
             isActive := new.isActive }

/-- Accumulated result of the enemy map. -/
structure EnemiesOut where
  enemies : List Entity
  aliased : List Entity
  projs : List Projectile
  hit : Prop
  spawned : List Item
  bossDied : Prop

/-- The enemy map, threading the shared projectile list left to right. -/
def enemiesFold (c : EnemyCtx) : List Projectile → ℕ → List Entity → EnemiesOut
  | projs, _, [] => ⟨[], [], projs, False, [], False⟩
  | projs, j, en :: rest =>
    let o := enemyStep c projs j en
    let r := enemiesFold c o.projs (j + 1) rest
    ⟨o.enemy :: r.enemies, aliasEnemy en o.enemy :: r.aliased, r.projs,
     o.hit ∨ r.hit, o.spawned ++ r.spawned, o.bossDied ∨ r.bossDied⟩

/-- Projectile advance and culling (lines 671-690): move by velocity, drop
inactive or out-of-bounds projectiles, and drop enemy projectiles that
strike the player (recording the hit). -/
def moveAndCull (player : Entity) (nx ny : ℝ) : List Projectile → List Projectile × Prop
  | [] => ([], False)
  | p :: rest =>
    let p1 := { p with position := ⟨p.position.x + p.velocity.x, p.position.y + p.velocity.y⟩ }
    let r := moveAndCull player nx ny rest
    if p1.isActive ∧ 0 < p1.position.x ∧ p1.position.x < CANVAS_WIDTH ∧
        0 < p1.position.y ∧ p1.position.y < CANVAS_HEIGHT then
      if p1.owner = Owner.ENEMY ∧ checkCollision p1.body ⟨⟨nx, ny⟩, player.size⟩ then
        (r.1, True)
      else (p1 :: r.1, r.2)
    else (r.1, r.2)

/-- Item pickup scan (lines 692-699): returns the updated item list and
the picked-up items in iteration order. -/
def itemsFold (player : Entity) (nx ny : ℝ) : List Item → List Item × List Item
  | [] => ([], [])
  | it :: rest =>
    let r := itemsFold player nx ny rest
    if it.isActive ∧ checkCollision ⟨⟨nx, ny⟩, player.size⟩ it.body then
      ({ it with isActive := false } :: r.1, { it with isActive := false } :: r.2)
    else (it :: r.1, r.2)

/-- Room-switch target: grid coordinate of the destination and the spawn
point on its opposite side (lines 707-722). -/
structure SwitchTarget where
  gx : ℤ
  gy : ℤ
  sx : ℝ
  sy : ℝ

def switchTarget (room : Room) (nx ny : ℝ) : Option SwitchTarget :=
  if ny < 20 ∧ room.doors.up then
    some ⟨room.gridX, room.gridY - 1, CANVAS_WIDTH / 2, CANVAS_HEIGHT - 80⟩
  else if ny > CANVAS_HEIGHT - 20 ∧ room.doors.down then
    some ⟨room.gridX, room.gridY + 1, CANVAS_WIDTH / 2, 80⟩
  else if nx < 20 ∧ room.doors.left then
    some ⟨room.gridX - 1, room.gridY, CANVAS_WIDTH - 80, CANVAS_HEIGHT / 2⟩
  else if nx > CANVAS_WIDTH - 20 ∧ room.doors.right then
    some ⟨room.gridX + 1, room.gridY, 80, CANVAS_HEIGHT / 2⟩
  else none

/-- One frame of the simulation (`update`).  The returned state is what
the next frame observes through the React state and its ref shadows,
including the effects of in-place object mutation on code paths that do
not call the corresponding setter (see the module comment). -/
def update (e : Externals) (s : SimState) : SimState :=
  if s.gameState ≠ GameState.PLAYING then s
  else
    match s.rooms.get? s.currentRoomIndex with
    | none => s
    | some currentRoom =>
      let d := moveDir e
      let nextFacing := getFacingFromVelocity d.1 d.2 s.player.facing
      let isRoomCleared := currentRoom.cleared || allInactive currentRoom.enemies
      let np := playerNext e s currentRoom
      let nx := np.1
      let ny := np.2
      let sp := shootPhase e s nx ny
      let eo := enemiesFold ⟨e, currentRoom, s.player, nx, ny⟩ sp.1 0 currentRoom.enemies
      let mc := moveAndCull s.player nx ny eo.projs
      let io := itemsFold s.player nx ny currentRoom.items
      let playerHit := eo.hit ∨ mc.2
      let pPicked := io.2.foldl (fun pl it => handleItemPickupPlayer it pl) s.player
      let tookDamage := playerHit ∧ e.damageRoll < 0.05
      let nextPlayerHealth := if tookDamage then s.player.health - 1 else s.player.health
      let gameState1 :=
        if tookDamage ∧ nextPlayerHealth ≤ 0 then GameState.GAME_OVER
        else if io.2 ≠ [] then GameState.ITEM_PICKUP_ANIMATION
        else if eo.bossDied then GameState.VICTORY
        else GameState.PLAYING
      let aliasedRoom :=
        { currentRoom with enemies := eo.aliased, items := io.1 ++ eo.spawned }
      match switchTarget currentRoom nx ny with
      | some t =>
        if isRoomCleared then
          let roomsMarked :=
            s.rooms.set s.currentRoomIndex { aliasedRoom with cleared := true }
          match roomsMarked.findIdx? (fun r => r.gridX == t.gx && r.gridY == t.gy) with
          | some nextRoomIndex =>
            { gameState := gameState1
              player := { pPicked with position := ⟨t.sx, t.sy⟩ }
              rooms := roomsMarked
              currentRoomIndex := nextRoomIndex
              projectiles := []
              lastShotTime := sp.2 }
          | none =>
            { gameState := gameState1
              player := pPicked
              rooms := roomsMarked
              currentRoomIndex := s.currentRoomIndex
              projectiles := eo.projs.take s.projectiles.length
              lastShotTime := sp.2 }
        else
          { gameState := gameState1
            player := { pPicked with position := ⟨nx, ny⟩, health := nextPlayerHealth }
            rooms := s.rooms.set s.currentRoomIndex aliasedRoom
            currentRoomIndex := s.currentRoomIndex
            projectiles := eo.projs.take s.projectiles.length
            lastShotTime := sp.2 }
      | none =>
        { gameState := gameState1
          player := { pPicked with
                        position := ⟨nx, ny⟩
                        health := nextPlayerHealth
                        facing := nextFacing }
          rooms := s.rooms.set s.currentRoomIndex
            { currentRoom with
                enemies := eo.enemies
                items := io.1 ++ eo.spawned
                cleared := currentRoom.cleared || allInactive eo.enemies }
          currentRoomIndex := s.currentRoomIndex
          projectiles := mc.1
          lastShotTime := sp.2 }

/-! ## Concrete states used to instantiate the theorems -/

/-- The starting player (`createPlayer`): room centre, 3 hearts, base
stats. -/
def createPlayer : Entity :=
  { id := "player"
    type := EntityType.PLAYER
    position := ⟨CANVAS_WIDTH / 2, CANVAS_HEIGHT / 2⟩
    velocity := ⟨0, 0⟩
    size := PLAYER_SIZE
    color := "pink"
    health := 6
    maxHealth := 6
    damage := 3.5
    speed := PLAYER_BASE_SPEED
    isActive := true
    modifiers := []
    facing := 0 }

def keys0 : Keys := ⟨false, false, false, false, false, false, false, false⟩

/-- Neutral externals: no input, all oracles constant. -/
def ex0 : Externals :=
  { dt := 0, now := 0
    moveInput := ⟨0, 0⟩, shootInput := ⟨0, 0⟩
    keys := keys0
    damageRoll := 1
    dropRoll := fun _ => 0
    itemRoll := fun _ => 0
    projIdRoll := fun _ => "ep" }

/-- An empty, unadorned start room at the origin. -/
def room0 : Room :=
  { id := "0,0", gridX := 0, gridY := 0, cleared := false
    enemies := [], items := []
    doors := ⟨false, false, false, false⟩
    isBossRoom := false, isItemRoom := false }

/-- A basic chaser enemy close to the left wall. -/
def enemyC1 : Entity :=
  { id := "enemy-0,0-0"
    type := EntityType.ENEMY
    variant := some EnemyVariant.BASIC
    position := ⟨52, 300⟩
    velocity := ⟨0, 0⟩
    size := ENEMY_SIZE
    color := "red"
    health := 10
    maxHealth := 10
    damage := 1
    speed := ENEMY_SPEED
    isActive := true
    modifiers := []
    facing := 0
    attackCooldown := 1000 }

/-- A non-piercing player tear resting exactly where `enemyC1` will move
this frame. -/
def projC1 : Projectile :=
  { id := "p-0", owner := Owner.PLAYER
    position := ⟨53.5, 300⟩, velocity := ⟨0, 0⟩
    size := PROJECTILE_SIZE, color := "blue"
    health := 1, maxHealth := 1
    damage := 3.5, speed := PROJECTILE_SPEED
    isActive := true, piercing := false, hitIds := [], modifiers := [] }

def roomC1 : Room := { room0 with enemies := [enemyC1] }

/-- Playing state for the knockback counterexample: idle player at the
room centre, one basic enemy near the left wall, one tear waiting at the
enemy's next position. -/
def stC1 : SimState :=
  { gameState := GameState.PLAYING
    player := createPlayer
    rooms := [roomC1]
    currentRoomIndex := 0
    projectiles := [projC1]
    lastShotTime := 0 }

/-- A room with an (incorrect, never generated) dangling door up and no
room above it; `cleared` is false but it counts as cleared because it has
no active enemies. -/
def roomC5 : Room := { room0 with doors := ⟨true, false, false, false⟩ }

def exC5 : Externals := { ex0 with moveInput := ⟨0, -1⟩ }

/-- Playing state for the aborted-transition counterexample: the player
stands in the top door zone moving up. -/
def stC5 : SimState :=
  { gameState := GameState.PLAYING
    player := { createPlayer with position := ⟨400, 20⟩ }
    rooms := [roomC5]
    currentRoomIndex := 0
    projectiles := []
    lastShotTime := 0 }

/-- Menu-state store with an already cleared room (monotonicity witness). -/
def stC3 : SimState :=
  { gameState := GameState.MENU
    player := createPlayer
    rooms := [{ room0 with cleared := true }]
    currentRoomIndex := 0
    projectiles := []
    lastShotTime := 0 }

def exC7 : Externals := { ex0 with moveInput := ⟨1, 0⟩ }

/-- Playing state for scenario A: fresh player, empty room, move input
(1,0). -/
def stC7 : SimState :=
  { gameState := GameState.PLAYING
    player := createPlayer
    rooms := [room0]
    currentRoomIndex := 0
    projectiles := []
    lastShotTime := 0 }

/-- A piercing player tear at (100,100). -/
def projC2 : Projectile :=
  { projC1 with id := "p-w", position := ⟨100, 100⟩, damage := 2, piercing := true }

/-- Two distinct basic enemies colliding with `projC2`. -/
def enemyA : Entity := { enemyC1 with id := "A", position := ⟨100, 100⟩ }

def enemyB : Entity := { enemyC1 with id := "B", position := ⟨100, 100⟩ }

/-- Enemy context used by the clamp witness: idle player treated as
standing at (100,100). -/
def ctxC1 : EnemyCtx := ⟨ex0, room0, createPlayer, 100, 100⟩

def enemyW : Entity := { enemyC1 with position := ⟨100, 100⟩ }

/-- Collision witness bodies: coincident circles, circles more than the
radius sum apart (3-4-5 triangle), and circles exactly at the radius
sum. -/
def bodyA : Body := ⟨⟨0, 0⟩, 10⟩

def bodyB : Body := ⟨⟨0, 0⟩, 4⟩

def bodyC : Body := ⟨⟨3, 4⟩, 2⟩

def bodyD : Body := ⟨⟨0, 0⟩, 6⟩

def bodyE : Body := ⟨⟨3, 4⟩, 4⟩

/-- Base item record for the pickup-effect witnesses. -/
def itemBase : Item :=
  { id := "i", itemType := ItemType.HEALTH
    position := ⟨400, 300⟩, velocity := ⟨0, 0⟩
    size := ITEM_SIZE, color := "gold"
    health := 1, maxHealth := 1, damage := 0, speed := 0
    isActive := true
    name := "Lunchly Meal", description := "Free loot", statDescription := ""
    modifiers := [] }

/-- Trivial generation oracle for the dungeon witness. -/
def genO0 : GenOracle :=
  { parentRoll := fun _ => 0
    dirOrder := fun _ => []
    itemRoll := 0
    itemTypeRoll := fun _ => 0
    countRoll := fun _ => 0
    variantRoll := fun _ _ => 0
    posXRoll := fun _ _ => 0
    posYRoll := fun _ _ => 0
    cooldownRoll := fun _ _ => 0 }

/-! ## Helper lemmas -/

theorem sqrt_eval {a b : ℝ} (hb : 0 ≤ b) (h : b * b = a) : Real.sqrt a = b := by
  subst h
  exact Real.sqrt_mul_self hb

theorem getDistance_self (v : Vector2) : getDistance v v = 0 := by
  unfold getDistance
  simp

theorem getDistance_34 : getDistance ⟨0, 0⟩ ⟨3, 4⟩ = 5 := by
  unfold getDistance
  rw [show ((3 : ℝ) - 0) ^ 2 + ((4 : ℝ) - 0) ^ 2 = 5 * 5 by norm_num]
  exact sqrt_eval (by norm_num) rfl

theorem rtrunc_small {t : ℝ} (h0 : 0 ≤ t) (h1 : t < 1) : rtrunc t = 0 := by
  unfold rtrunc
  rw [if_pos h0]
  exact Int.floor_eq_zero_iff.mpr ⟨h0, h1⟩

theorem jsMod_small {x y : ℝ} (hx : 0 ≤ x) (hy : 0 < y) (h : x < y) : jsMod x y = x := by
  unfold jsMod
  rw [rtrunc_small (by positivity) (by rw [div_lt_one hy]; exact h)]
  simp

theorem degOf_zero : degOf 0 = 0 := by
  unfold degOf
  rw [zero_mul]
  norm_num

theorem atan2_zero_one : atan2 0 1 = 0 := by
  unfold atan2
  rw [show (⟨1, 0⟩ : ℂ) = 1 from Complex.ext (by simp) (by simp)]
  exact Complex.arg_one

theorem getFacing_east (f : ℤ) : getFacingFromVelocity 1 0 f = 6 := by
  unfold getFacingFromVelocity
  rw [if_neg (by rw [abs_one]; norm_num), atan2_zero_one, degOf_zero, zero_add,
      jsMod_small (by norm_num) (by norm_num) (by norm_num),
      show (22.5 : ℝ) / 45 = 0.5 by norm_num,
      Int.floor_eq_zero_iff.mpr ⟨by norm_num, by norm_num⟩]
  decide

theorem complex_real_mul_mk (k vx vy : ℝ) : (⟨k * vx, k * vy⟩ : ℂ) = (k : ℂ) * ⟨vx, vy⟩ := by
  apply Complex.ext <;>
    simp [Complex.mul_re, Complex.mul_im, Complex.ofReal_re, Complex.ofReal_im]

theorem atan2_scale {k : ℝ} (hk : 0 < k) (vy vx : ℝ) :
    atan2 (k * vy) (k * vx) = atan2 vy vx := by
  unfold atan2
  rw [complex_real_mul_mk, Complex.arg_real_mul _ hk]

/-! ## C6: the collision predicate -/

/-- C6: `checkCollision a b` holds iff the Euclidean distance of the two
positions is strictly less than `a.size/2 + b.size/2`; coincident entities
of positive size always collide; entities separated by more than the
radius sum never collide; distance exactly the radius sum does not
collide. -/
theorem checkCollision_spec (a b : Body) :
    (checkCollision a b ↔
      Real.sqrt ((b.position.x - a.position.x) ^ 2 + (b.position.y - a.position.y) ^ 2) <
        a.size / 2 + b.size / 2)
    ∧ (a.position = b.position → 0 < a.size → 0 < b.size → checkCollision a b)
    ∧ (a.size / 2 + b.size / 2 < getDistance a.position b.position → ¬ checkCollision a b)
    ∧ (getDistance a.position b.position = a.size / 2 + b.size / 2 → ¬ checkCollision a b) := by
  refine ⟨Iff.rfl, ?_, ?_, ?_⟩
  · intro hp ha hb
    unfold checkCollision
    rw [hp, getDistance_self]
    positivity
  · intro h hc
    unfold checkCollision at hc
    linarith
  · intro h hc
    unfold checkCollision at hc
    linarith

/-- C6 witness: coincident circles of sizes 10 and 4 collide; circles 5
apart with radius sum 3 do not; circles 5 apart with radius sum exactly 5
do not. -/
theorem checkCollision_spec_witness :
    checkCollision bodyA bodyB ∧ ¬ checkCollision bodyB bodyC ∧ ¬ checkCollision bodyD bodyE := by
  refine ⟨(checkCollision_spec bodyA bodyB).2.1 rfl (by norm_num [bodyA]) (by norm_num [bodyB]),
    (checkCollision_spec bodyB bodyC).2.2.1 ?_,
    (checkCollision_spec bodyD bodyE).2.2.2 ?_⟩
  · show bodyB.size / 2 + bodyC.size / 2 < getDistance bodyB.position bodyC.position
    rw [show bodyB.position = ⟨0, 0⟩ from rfl, show bodyC.position = ⟨3, 4⟩ from rfl,
        getDistance_34]
    norm_num [bodyB, bodyC]
  · show getDistance bodyD.position bodyE.position = bodyD.size / 2 + bodyE.size / 2
    rw [show bodyD.position = ⟨0, 0⟩ from rfl, show bodyE.position = ⟨3, 4⟩ from rfl,
        getDistance_34]
    norm_num [bodyD, bodyE]

/-! ## C10: commutativity of the collision predicate -/

/-- C10: `checkCollision` is commutative. -/
theorem checkCollision_comm (a b : Body) : checkCollision a b ↔ checkCollision b a := by
  unfold checkCollision getDistance
  rw [show (b.position.x - a.position.x) ^ 2 = (a.position.x - b.position.x) ^ 2 by ring,
      show (b.position.y - a.position.y) ^ 2 = (a.position.y - b.position.y) ^ 2 by ring,
      add_comm (a.size / 2)]

/-! ## C9: facing under idle input and positive scaling -/

/-- C9 (amended): idle input below the near-zero threshold keeps the
previous facing, and for every vector above the threshold and every
positive scale factor whose scaled vector is also above the threshold,
scaling does not change the facing. -/
theorem facing_idle_and_scale :
    (∀ f : ℤ, getFacingFromVelocity 0 0 f = f)
    ∧ ∀ (vx vy : ℝ) (f : ℤ) (k : ℝ),
        ¬(|vx| < 0.1 ∧ |vy| < 0.1) → ¬(|k * vx| < 0.1 ∧ |k * vy| < 0.1) → 0 < k →
        getFacingFromVelocity (k * vx) (k * vy) f = getFacingFromVelocity vx vy f := by
  constructor
  · intro f
    unfold getFacingFromVelocity
    rw [if_pos ⟨by rw [abs_zero]; norm_num, by rw [abs_zero]; norm_num⟩]
  · intro vx vy f k h1 h2 hk
    unfold getFacingFromVelocity
    rw [if_neg h2, if_neg h1, atan2_scale hk]

/-- C9 counterexample: the claim quantifies over every positive scale
factor, but scaling (1,0) by 1/100 drops the vector below the near-zero
threshold, so the code returns the retained previous facing 0 instead of
the east index 6. -/
theorem facing_scale_cex :
    ¬(|(1 : ℝ)| < 0.1 ∧ |(0 : ℝ)| < 0.1) ∧ (0 : ℝ) < 0.01 ∧
      getFacingFromVelocity (0.01 * 1) (0.01 * 0) 0 ≠ getFacingFromVelocity 1 0 0 := by
  refine ⟨by rw [abs_one]; norm_num, by norm_num, ?_⟩
  have h : getFacingFromVelocity 0.01 0 0 = 0 := by
    unfold getFacingFromVelocity
    rw [if_pos ⟨by rw [abs_of_pos (by norm_num : (0 : ℝ) < 0.01)]; norm_num,
                by rw [abs_zero]; norm_num⟩]
  rw [getFacing_east 0, show (0.01 : ℝ) * 1 = 0.01 by norm_num,
      show (0.01 : ℝ) * 0 = 0 by norm_num, h]
  decide

/-- C9 witness: inputs (10,0) and (1,0) yield the same facing index, and
idle input keeps facing 3. -/
theorem facing_idle_and_scale_witness :
    getFacingFromVelocity 0 0 3 = 3 ∧
      getFacingFromVelocity (10 * 1) (10 * 0) 5 = getFacingFromVelocity 1 0 5 := by
  refine ⟨facing_idle_and_scale.1 3, facing_idle_and_scale.2 1 0 5 10 ?_ ?_ (by norm_num)⟩
  · rw [abs_one]; norm_num
  · intro hc
    have h10 := hc.1
    rw [show (10 : ℝ) * 1 = 10 by norm_num,
        abs_of_pos (by norm_num : (0 : ℝ) < 10)] at h10
    norm_num at h10

/-! ## C4: item pickup effects -/

/-- C4: for every item type, `handleItemPickup` mutates the player exactly
as the effect table states and changes no other player field. -/
theorem handleItemPickup_effects (item : Item) (p : Entity) :
    (item.itemType = ItemType.HEALTH →
      handleItemPickupPlayer item p =
        { p with maxHealth := p.maxHealth + 2, health := p.maxHealth + 2 })
    ∧ (item.itemType = ItemType.DAMAGE →
      handleItemPickupPlayer item p = { p with damage := p.damage + 1.5 })
    ∧ (item.itemType = ItemType.SPEED →
      handleItemPickupPlayer item p = { p with speed := p.speed + 0.5 })
    ∧ (item.itemType = ItemType.TRIPLE_SHOT →
      handleItemPickupPlayer item p =
        { p with modifiers := p.modifiers ++ [Modifier.TRIPLE_SHOT] })
    ∧ (item.itemType = ItemType.PIERCING →
      handleItemPickupPlayer item p =
        { p with modifiers := p.modifiers ++ [Modifier.PIERCING] })
    ∧ (item.itemType = ItemType.BIG_TEARS →
      handleItemPickupPlayer item p =
        { p with damage := p.damage + 2,
                 modifiers := p.modifiers ++ [Modifier.BIG_TEARS] }) := by
  refine ⟨?_, ?_, ?_, ?_, ?_, ?_⟩ <;> intro h <;> simp [handleItemPickupPlayer, h]

/-- C4 witness: each of the six item types applied to the starting
player. -/
theorem handleItemPickup_effects_witness :
    handleItemPickupPlayer itemBase createPlayer =
      { createPlayer with maxHealth := createPlayer.maxHealth + 2,
                          health := createPlayer.maxHealth + 2 }
    ∧ handleItemPickupPlayer { itemBase with itemType := ItemType.DAMAGE } createPlayer =
      { createPlayer with damage := createPlayer.damage + 1.5 }
    ∧ handleItemPickupPlayer { itemBase with itemType := ItemType.SPEED } createPlayer =
      { createPlayer with speed := createPlayer.speed + 0.5 }
    ∧ handleItemPickupPlayer { itemBase with itemType := ItemType.TRIPLE_SHOT } createPlayer =
      { createPlayer with modifiers := createPlayer.modifiers ++ [Modifier.TRIPLE_SHOT] }
    ∧ handleItemPickupPlayer { itemBase with itemType := ItemType.PIERCING } createPlayer =
      { createPlayer with modifiers := createPlayer.modifiers ++ [Modifier.PIERCING] }
    ∧ handleItemPickupPlayer { itemBase with itemType := ItemType.BIG_TEARS } createPlayer =
      { createPlayer with damage := createPlayer.damage + 2,
                          modifiers := createPlayer.modifiers ++ [Modifier.BIG_TEARS] } :=
  ⟨(handleItemPickup_effects itemBase createPlayer).1 rfl,
   (handleItemPickup_effects _ createPlayer).2.1 rfl,
   (handleItemPickup_effects _ createPlayer).2.2.1 rfl,
   (handleItemPickup_effects _ createPlayer).2.2.2.1 rfl,
   (handleItemPickup_effects _ createPlayer).2.2.2.2.1 rfl,
   (handleItemPickup_effects _ createPlayer).2.2.2.2.2 rfl⟩

/-! ## C8: doors of the generated dungeon -/

theorem hasRoomAt_iff (rooms : List Room) (gx gy : ℤ) :
    hasRoomAt rooms gx gy = true ↔ ∃ n ∈ rooms, n.gridX = gx ∧ n.gridY = gy := by
  unfold hasRoomAt
  rw [List.any_eq_true]
  constructor
  · rintro ⟨n, hn, h⟩
    rw [Bool.and_eq_true, beq_iff_eq, beq_iff_eq] at h
    exact ⟨n, hn, h⟩
  · rintro ⟨n, hn, h1, h2⟩
    refine ⟨n, hn, ?_⟩
    rw [Bool.and_eq_true, beq_iff_eq, beq_iff_eq]
    exact ⟨h1, h2⟩

theorem linkOne_gridX (rooms : List Room) (r : Room) : (linkOne rooms r).gridX = r.gridX := rfl

theorem linkOne_gridY (rooms : List Room) (r : Room) : (linkOne rooms r).gridY = r.gridY := rfl

theorem linkOne_doors_up (rooms : List Room) (r : Room) :
    (linkOne rooms r).doors.up = hasRoomAt rooms r.gridX (r.gridY - 1) := rfl

theorem linkOne_doors_down (rooms : List Room) (r : Room) :
    (linkOne rooms r).doors.down = hasRoomAt rooms r.gridX (r.gridY + 1) := rfl

theorem linkOne_doors_left (rooms : List Room) (r : Room) :
    (linkOne rooms r).doors.left = hasRoomAt rooms (r.gridX - 1) r.gridY := rfl

theorem linkOne_doors_right (rooms : List Room) (r : Room) :
    (linkOne rooms r).doors.right = hasRoomAt rooms (r.gridX + 1) r.gridY := rfl

theorem hasRoomAt_linkDoors (rooms : List Room) (gx gy : ℤ) :
    hasRoomAt (linkDoors rooms) gx gy = hasRoomAt rooms gx gy := by
  unfold linkDoors hasRoomAt
  rw [List.any_map]
  rfl

theorem linkDoors_spec (rooms : List Room) (r : Room) (hr : r ∈ linkDoors rooms) :
    ((r.doors.up = true ↔ ∃ n ∈ linkDoors rooms, n.gridX = r.gridX ∧ n.gridY = r.gridY - 1)
     ∧ (r.doors.down = true ↔ ∃ n ∈ linkDoors rooms, n.gridX = r.gridX ∧ n.gridY = r.gridY + 1)
     ∧ (r.doors.left = true ↔ ∃ n ∈ linkDoors rooms, n.gridX = r.gridX - 1 ∧ n.gridY = r.gridY)
     ∧ (r.doors.right = true ↔ ∃ n ∈ linkDoors rooms, n.gridX = r.gridX + 1 ∧ n.gridY = r.gridY))
    ∧ ∀ n ∈ linkDoors rooms,
        ((n.gridX = r.gridX ∧ n.gridY = r.gridY - 1) → r.doors.up = true ∧ n.doors.down = true)
        ∧ ((n.gridX = r.gridX ∧ n.gridY = r.gridY + 1) → r.doors.down = true ∧ n.doors.up = true)
        ∧ ((n.gridX = r.gridX - 1 ∧ n.gridY = r.gridY) → r.doors.left = true ∧ n.doors.right = true)
        ∧ ((n.gridX = r.gridX + 1 ∧ n.gridY = r.gridY) → r.doors.right = true ∧ n.doors.left = true) := by
  obtain ⟨r0, hr0, rfl⟩ := List.mem_map.mp hr
  have hD : ∀ gx gy : ℤ,
      hasRoomAt rooms gx gy = true ↔ ∃ n ∈ linkDoors rooms, n.gridX = gx ∧ n.gridY = gy := by
    intro gx gy
    rw [← hasRoomAt_linkDoors]
    exact hasRoomAt_iff _ _ _
  constructor
  · refine ⟨?_, ?_, ?_, ?_⟩ <;>
      simp only [linkOne_gridX, linkOne_gridY, linkOne_doors_up, linkOne_doors_down,
        linkOne_doors_left, linkOne_doors_right] <;>
      exact hD _ _
  · intro n hn
    obtain ⟨n0, hn0, rfl⟩ := List.mem_map.mp hn
    refine ⟨?_, ?_, ?_, ?_⟩ <;>
      simp only [linkOne_gridX, linkOne_gridY, linkOne_doors_up, linkOne_doors_down,
        linkOne_doors_left, linkOne_doors_right] <;>
      rintro ⟨h1, h2⟩
    · exact ⟨(hasRoomAt_iff _ _ _).mpr ⟨n0, hn0, h1, h2⟩,
        (hasRoomAt_iff _ _ _).mpr ⟨r0, hr0, by omega, by omega⟩⟩
    · exact ⟨(hasRoomAt_iff _ _ _).mpr ⟨n0, hn0, h1, h2⟩,
        (hasRoomAt_iff _ _ _).mpr ⟨r0, hr0, by omega, by omega⟩⟩
    · exact ⟨(hasRoomAt_iff _ _ _).mpr ⟨n0, hn0, h1, h2⟩,
        (hasRoomAt_iff _ _ _).mpr ⟨r0, hr0, by omega, by omega⟩⟩
    · exact ⟨(hasRoomAt_iff _ _ _).mpr ⟨n0, hn0, h1, h2⟩,
        (hasRoomAt_iff _ _ _).mpr ⟨r0, hr0, by omega, by omega⟩⟩

/-- C8: in every generated dungeon, a room has a door in a direction iff a
generated room exists at the grid-adjacent coordinate in that direction,
and doors are symmetric between adjacent rooms. -/
theorem dungeon_doors_iff_adjacent (o : GenOracle) (fuel target : ℕ) (r : Room)
    (hr : r ∈ generateDungeon o fuel target) :
    ((r.doors.up = true ↔
        ∃ n ∈ generateDungeon o fuel target, n.gridX = r.gridX ∧ n.gridY = r.gridY - 1)
     ∧ (r.doors.down = true ↔
        ∃ n ∈ generateDungeon o fuel target, n.gridX = r.gridX ∧ n.gridY = r.gridY + 1)
     ∧ (r.doors.left = true ↔
        ∃ n ∈ generateDungeon o fuel target, n.gridX = r.gridX - 1 ∧ n.gridY = r.gridY)
     ∧ (r.doors.right = true ↔
        ∃ n ∈ generateDungeon o fuel target, n.gridX = r.gridX + 1 ∧ n.gridY = r.gridY))
    ∧ ∀ n ∈ generateDungeon o fuel target,
        ((n.gridX = r.gridX ∧ n.gridY = r.gridY - 1) → r.doors.up = true ∧ n.doors.down = true)
        ∧ ((n.gridX = r.gridX ∧ n.gridY = r.gridY + 1) → r.doors.down = true ∧ n.doors.up = true)
        ∧ ((n.gridX = r.gridX - 1 ∧ n.gridY = r.gridY) → r.doors.left = true ∧ n.doors.right = true)
        ∧ ((n.gridX = r.gridX + 1 ∧ n.gridY = r.gridY) → r.doors.right = true ∧ n.doors.left = true) :=
  linkDoors_spec (genBase o fuel target) r hr

theorem getD_zero_mem {α : Type} (l : List α) (d : α) (h : l ≠ []) : l.getD 0 d ∈ l := by
  cases l with
  | nil => exact absurd rfl h
  | cons a t => simp [List.getD]

/-- C8 witness: the dungeon generated with fuel 0 (a single start room)
satisfies the door iff for its first room. -/
theorem dungeon_doors_iff_adjacent_witness :
    (generateDungeon genO0 0 1).getD 0 room0 ∈ generateDungeon genO0 0 1 ∧
      (((generateDungeon genO0 0 1).getD 0 room0).doors.up = true ↔
        ∃ n ∈ generateDungeon genO0 0 1,
          n.gridX = ((generateDungeon genO0 0 1).getD 0 room0).gridX ∧
            n.gridY = ((generateDungeon genO0 0 1).getD 0 room0).gridY - 1) := by
  have hne : generateDungeon genO0 0 1 ≠ [] := by
    simp [generateDungeon, genBase, genVisited, grow, linkDoors]
  have hmem := getD_zero_mem _ room0 hne
  exact ⟨hmem, (dungeon_doors_iff_adjacent genO0 0 1 _ hmem).1.1⟩

/-! ## C2: the projectile-versus-enemy hit loop -/

theorem applyPP_nil (en : Entity) (vx vy h eX eY : ℝ) :
    applyPlayerProjectiles en vx vy [] h eX eY = ([], h, eX, eY) := rfl

theorem applyPP_cons_hit (en : Entity) (vx vy : ℝ) (p : Projectile) (rest : List Projectile)
    (h eX eY : ℝ) (hact : p.isActive = true) (hown : p.owner = Owner.PLAYER)
    (hled : ¬(p.piercing = true ∧ en.id ∈ p.hitIds))
    (hcol : checkCollision p.body ⟨⟨eX, eY⟩, en.size⟩) :
    applyPlayerProjectiles en vx vy (p :: rest) h eX eY =
      ((if p.piercing then { p with hitIds := p.hitIds ++ [en.id] }
        else { p with isActive := false }) ::
          (applyPlayerProjectiles en vx vy rest (h - p.damage)
            (if en.variant ≠ some EnemyVariant.TANK ∧ en.type ≠ EntityType.BOSS then
              (eX - vx * 6, eY - vy * 6) else (eX, eY)).1
            (if en.variant ≠ some EnemyVariant.TANK ∧ en.type ≠ EntityType.BOSS then
              (eX - vx * 6, eY - vy * 6) else (eX, eY)).2).1,
       (applyPlayerProjectiles en vx vy rest (h - p.damage)
          (if en.variant ≠ some EnemyVariant.TANK ∧ en.type ≠ EntityType.BOSS then
            (eX - vx * 6, eY - vy * 6) else (eX, eY)).1
          (if en.variant ≠ some EnemyVariant.TANK ∧ en.type ≠ EntityType.BOSS then
            (eX - vx * 6, eY - vy * 6) else (eX, eY)).2).2) := by
  simp only [applyPlayerProjectiles]
  rw [if_pos ⟨hact, hown⟩, if_neg hled, if_pos hcol]

theorem applyPP_cons_ledger (en : Entity) (vx vy : ℝ) (p : Projectile) (rest : List Projectile)
    (h eX eY : ℝ) (hact : p.isActive = true) (hown : p.owner = Owner.PLAYER)
    (hled : p.piercing = true ∧ en.id ∈ p.hitIds) :
    applyPlayerProjectiles en vx vy (p :: rest) h eX eY =
      (p :: (applyPlayerProjectiles en vx vy rest h eX eY).1,
       (applyPlayerProjectiles en vx vy rest h eX eY).2) := by
  simp only [applyPlayerProjectiles]
  rw [if_pos ⟨hact, hown⟩, if_pos hled]

theorem applyPP_cons_nocol (en : Entity) (vx vy : ℝ) (p : Projectile) (rest : List Projectile)
    (h eX eY : ℝ) (hact : p.isActive = true) (hown : p.owner = Owner.PLAYER)
    (hled : ¬(p.piercing = true ∧ en.id ∈ p.hitIds))
    (hcol : ¬ checkCollision p.body ⟨⟨eX, eY⟩, en.size⟩) :
    applyPlayerProjectiles en vx vy (p :: rest) h eX eY =
      (p :: (applyPlayerProjectiles en vx vy rest h eX eY).1,
       (applyPlayerProjectiles en vx vy rest h eX eY).2) := by
  simp only [applyPlayerProjectiles]
  rw [if_pos ⟨hact, hown⟩, if_neg hled, if_neg hcol]

theorem applyPP_cons_skip (en : Entity) (vx vy : ℝ) (p : Projectile) (rest : List Projectile)
    (h eX eY : ℝ) (hskip : ¬(p.isActive = true ∧ p.owner = Owner.PLAYER)) :
    applyPlayerProjectiles en vx vy (p :: rest) h eX eY =
      (p :: (applyPlayerProjectiles en vx vy rest h eX eY).1,
       (applyPlayerProjectiles en vx vy rest h eX eY).2) := by
  simp only [applyPlayerProjectiles]
  rw [if_neg hskip]

/-- C2: a piercing player projectile hitting enemy A then enemy B records
both ids in its hit ledger, stays active and deals its damage to each;
after recording an id it never damages that enemy again; a non-piercing
projectile deactivates on its first hit and the second enemy is left
untouched; every hit subtracts exactly the projectile's damage. -/
theorem projectile_hit_ledger_spec (p : Projectile) (A B : Entity)
    (vxa vya vxb vyb aX aY bX bY hA hB : ℝ)
    (hact : p.isActive = true) (hown : p.owner = Owner.PLAYER) :
    (p.piercing = true → A.id ∉ p.hitIds → B.id ∉ p.hitIds → B.id ≠ A.id →
      checkCollision p.body ⟨⟨aX, aY⟩, A.size⟩ → checkCollision p.body ⟨⟨bX, bY⟩, B.size⟩ →
      (applyPlayerProjectiles A vxa vya [p] hA aX aY).1 =
          [{ p with hitIds := p.hitIds ++ [A.id] }]
        ∧ (applyPlayerProjectiles A vxa vya [p] hA aX aY).2.1 = hA - p.damage
        ∧ (applyPlayerProjectiles B vxb vyb
              (applyPlayerProjectiles A vxa vya [p] hA aX aY).1 hB bX bY).1 =
            [{ p with hitIds := (p.hitIds ++ [A.id]) ++ [B.id] }]
        ∧ (applyPlayerProjectiles B vxb vyb
              (applyPlayerProjectiles A vxa vya [p] hA aX aY).1 hB bX bY).2.1 = hB - p.damage
        ∧ A.id ∈ (p.hitIds ++ [A.id]) ++ [B.id] ∧ B.id ∈ (p.hitIds ++ [A.id]) ++ [B.id]
        ∧ ({ p with hitIds := (p.hitIds ++ [A.id]) ++ [B.id] } : Projectile).isActive = true)
    ∧ (p.piercing = true → A.id ∈ p.hitIds →
        applyPlayerProjectiles A vxa vya [p] hA aX aY = ([p], hA, aX, aY))
    ∧ (p.piercing = false → checkCollision p.body ⟨⟨aX, aY⟩, A.size⟩ →
        (applyPlayerProjectiles A vxa vya [p] hA aX aY).1 = [{ p with isActive := false }]
        ∧ (applyPlayerProjectiles A vxa vya [p] hA aX aY).2.1 = hA - p.damage
        ∧ applyPlayerProjectiles B vxb vyb
            (applyPlayerProjectiles A vxa vya [p] hA aX aY).1 hB bX bY =
          ([{ p with isActive := false }], hB, bX, bY)) := by
  refine ⟨?_, ?_, ?_⟩
  · intro hpier hAnot hBnot hBA cA cB
    have eA := applyPP_cons_hit A vxa vya p [] hA aX aY hact hown
      (by intro hc; exact hAnot hc.2) cA
    rw [if_pos hpier] at eA
    have e1 : (applyPlayerProjectiles A vxa vya [p] hA aX aY).1 =
        [{ p with hitIds := p.hitIds ++ [A.id] }] := by
      rw [eA]
      simp [applyPP_nil]
    have e2 : (applyPlayerProjectiles A vxa vya [p] hA aX aY).2.1 = hA - p.damage := by
      rw [eA]
      simp [applyPP_nil]
    have hBnot1 : B.id ∉ p.hitIds ++ [A.id] := by
      intro hc
      rcases List.mem_append.mp hc with hc1 | hc2
      · exact hBnot hc1
      · exact hBA (List.mem_singleton.mp hc2)
    have eB := applyPP_cons_hit B vxb vyb { p with hitIds := p.hitIds ++ [A.id] } [] hB bX bY
      hact hown (by intro hc; exact hBnot1 hc.2) cB
    rw [if_pos (show ({ p with hitIds := p.hitIds ++ [A.id] } : Projectile).piercing = true
      from hpier)] at eB
    refine ⟨e1, e2, ?_, ?_, ?_, ?_, hact⟩
    · rw [e1, eB]
      simp [applyPP_nil]
    · rw [e1, eB]
      simp [applyPP_nil]
    · exact List.mem_append.mpr (Or.inl (List.mem_append.mpr (Or.inr (List.mem_singleton.mpr rfl))))
    · exact List.mem_append.mpr (Or.inr (List.mem_singleton.mpr rfl))
  · intro hpier hAmem
    rw [applyPP_cons_ledger A vxa vya p [] hA aX aY hact hown ⟨hpier, hAmem⟩]
    simp [applyPP_nil]
  · intro hpier cA
    have eA := applyPP_cons_hit A vxa vya p [] hA aX aY hact hown
      (by intro hc; rw [hpier] at hc; exact Bool.false_ne_true hc.1) cA
    rw [if_neg (by rw [hpier]; exact Bool.false_ne_true)] at eA
    have e1 : (applyPlayerProjectiles A vxa vya [p] hA aX aY).1 =
        [{ p with isActive := false }] := by
      rw [eA]
      simp [applyPP_nil]
    refine ⟨e1, ?_, ?_⟩
    · rw [eA]
      simp [applyPP_nil]
    · rw [e1, applyPP_cons_skip B vxb vyb { p with isActive := false } [] hB bX bY
        (by intro hc; exact Bool.false_ne_true hc.1)]
      simp [applyPP_nil]

/-- C2 witness: a concrete piercing tear hitting enemies A then B, and the
same tear made non-piercing deactivating on its first hit. -/
theorem projectile_hit_ledger_spec_witness :
    ((applyPlayerProjectiles enemyA 0 0 [projC2] 10 100 100).1 =
        [{ projC2 with hitIds := projC2.hitIds ++ ["A"] }]
      ∧ (applyPlayerProjectiles enemyA 0 0 [projC2] 10 100 100).2.1 = 10 - projC2.damage
      ∧ (applyPlayerProjectiles enemyB 0 0
            (applyPlayerProjectiles enemyA 0 0 [projC2] 10 100 100).1 10 100 100).1 =
          [{ projC2 with hitIds := (projC2.hitIds ++ ["A"]) ++ ["B"] }]
      ∧ (applyPlayerProjectiles enemyB 0 0
            (applyPlayerProjectiles enemyA 0 0 [projC2] 10 100 100).1 10 100 100).2.1 =
          10 - projC2.damage
      ∧ "A" ∈ (projC2.hitIds ++ ["A"]) ++ ["B"] ∧ "B" ∈ (projC2.hitIds ++ ["A"]) ++ ["B"]
      ∧ ({ projC2 with hitIds := (projC2.hitIds ++ ["A"]) ++ ["B"] } : Projectile).isActive = true)
    ∧ ((applyPlayerProjectiles enemyA 0 0 [{ projC2 with piercing := false }] 10 100 100).1 =
        [{ { projC2 with piercing := false } with isActive := false }]
      ∧ applyPlayerProjectiles enemyB 0 0
          (applyPlayerProjectiles enemyA 0 0 [{ projC2 with piercing := false }] 10 100 100).1
          10 100 100 =
        ([{ { projC2 with piercing := false } with isActive := false }], 10, 100, 100)) := by
  have hcol : ∀ en : Entity, en.size = ENEMY_SIZE →
      checkCollision projC2.body ⟨⟨100, 100⟩, en.size⟩ := by
    intro en hsz
    show getDistance projC2.body.position _ < _
    rw [show projC2.body.position = ⟨100, 100⟩ from rfl, getDistance_self, hsz]
    show (0 : ℝ) < projC2.body.size / 2 + ENEMY_SIZE / 2
    norm_num [projC2, projC1, Projectile.body, ENEMY_SIZE, PROJECTILE_SIZE]
  have h1 := (projectile_hit_ledger_spec projC2 enemyA enemyB 0 0 0 0 100 100 100 100 10 10
    rfl rfl).1 rfl (by simp [projC2, projC1]) (by simp [projC2, projC1])
    (by simp [enemyA, enemyB, enemyC1]) (hcol enemyA rfl) (hcol enemyB rfl)
  have h2 := (projectile_hit_ledger_spec { projC2 with piercing := false } enemyA enemyB
    0 0 0 0 100 100 100 100 10 10 rfl rfl).2.2 rfl (hcol enemyA rfl)
  exact ⟨h1, h2.1, h2.2.2⟩

/-! ## C1: enemy wall clamp versus knockback -/

theorem clampEnemy_bounds (x y : ℝ) :
    50 ≤ (clampEnemy x y).1 ∧ (clampEnemy x y).1 ≤ CANVAS_WIDTH - 50 ∧
      50 ≤ (clampEnemy x y).2 ∧ (clampEnemy x y).2 ≤ CANVAS_HEIGHT - 50 := by
  unfold clampEnemy CANVAS_WIDTH CANVAS_HEIGHT
  dsimp only
  refine ⟨?_, ?_, ?_, ?_⟩ <;> split_ifs <;> (try norm_num) <;> linarith

theorem applyPP_no_hit (en : Entity) (vx vy : ℝ) (l : List Projectile) :
    ∀ (h eX eY : ℝ),
      (∀ p ∈ l, ¬(p.isActive = true ∧ p.owner = Owner.PLAYER ∧
        ¬(p.piercing = true ∧ en.id ∈ p.hitIds) ∧
        checkCollision p.body ⟨⟨eX, eY⟩, en.size⟩)) →
      applyPlayerProjectiles en vx vy l h eX eY = (l, h, eX, eY) := by
  induction l with
  | nil => intro h eX eY _; exact applyPP_nil en vx vy h eX eY
  | cons p rest ih =>
    intro h eX eY H
    by_cases hskip : p.isActive = true ∧ p.owner = Owner.PLAYER
    · by_cases hled : p.piercing = true ∧ en.id ∈ p.hitIds
      · rw [applyPP_cons_ledger en vx vy p rest h eX eY hskip.1 hskip.2 hled,
          ih h eX eY (fun q hq => H q (List.mem_cons_of_mem p hq))]
      · have hcol : ¬ checkCollision p.body ⟨⟨eX, eY⟩, en.size⟩ := fun hc =>
          H p (List.mem_cons_self p rest) ⟨hskip.1, hskip.2, hled, hc⟩
        rw [applyPP_cons_nocol en vx vy p rest h eX eY hskip.1 hskip.2 hled hcol,
          ih h eX eY (fun q hq => H q (List.mem_cons_of_mem p hq))]
    · rw [applyPP_cons_skip en vx vy p rest h eX eY hskip,
        ih h eX eY (fun q hq => H q (List.mem_cons_of_mem p hq))]

theorem applyPP_tank_pos (en : Entity)
    (hTB : en.variant = some EnemyVariant.TANK ∨ en.type = EntityType.BOSS)
    (vx vy : ℝ) (l : List Projectile) :
    ∀ (h eX eY : ℝ), (applyPlayerProjectiles en vx vy l h eX eY).2.2 = (eX, eY) := by
  induction l with
  | nil => intro h eX eY; rfl
  | cons p rest ih =>
    intro h eX eY
    by_cases hskip : p.isActive = true ∧ p.owner = Owner.PLAYER
    · by_cases hled : p.piercing = true ∧ en.id ∈ p.hitIds
      · rw [applyPP_cons_ledger en vx vy p rest h eX eY hskip.1 hskip.2 hled]
        exact ih h eX eY
      · by_cases hcol : checkCollision p.body ⟨⟨eX, eY⟩, en.size⟩
        · rw [applyPP_cons_hit en vx vy p rest h eX eY hskip.1 hskip.2 hled hcol,
            if_neg (show ¬(en.variant ≠ some EnemyVariant.TANK ∧ en.type ≠ EntityType.BOSS)
              from fun hc => hTB.elim hc.1 hc.2)]
          exact ih (h - p.damage) eX eY
        · rw [applyPP_cons_nocol en vx vy p rest h eX eY hskip.1 hskip.2 hled hcol]
          exact ih h eX eY
    · rw [applyPP_cons_skip en vx vy p rest h eX eY hskip]
      exact ih h eX eY

theorem enemyVel_fired_enemy (c : EnemyCtx) (j : ℕ) (en : Entity) (cd0 dx dy dist : ℝ) :
    ∀ q ∈ (enemyVel c j en cd0 dx dy dist).2.2, q.owner = Owner.ENEMY := by
  unfold enemyVel
  split_ifs <;> intro q hq <;> simp_all [mkEnemyShot]

/-- C1 (amended): in every simulation step, an active enemy's position
after AI movement is clamped into `[50, 750] × [50, 550]` with no door
exception; the position written back at the end of the step equals that
clamped position — and hence stays within the room bounds — whenever no
player projectile knocks the enemy back this step (no qualifying hit, or
the enemy is a TANK or BOSS, which take no knockback).  A knockback is
applied after the clamp and can leave the written-back position outside
the bounds (see the counterexample). -/
theorem enemy_clamp_knockback (c : EnemyCtx) (projs : List Projectile) (j : ℕ) (en : Entity)
    (hact : en.isActive = true) :
    (50 ≤ (enemyMovedPos c j en).1 ∧ (enemyMovedPos c j en).1 ≤ CANVAS_WIDTH - 50 ∧
      50 ≤ (enemyMovedPos c j en).2 ∧ (enemyMovedPos c j en).2 ≤ CANVAS_HEIGHT - 50)
    ∧ ((∀ p ∈ projs, ¬(p.isActive = true ∧ p.owner = Owner.PLAYER ∧
          ¬(p.piercing = true ∧ en.id ∈ p.hitIds) ∧
          checkCollision p.body
            ⟨⟨(enemyMovedPos c j en).1, (enemyMovedPos c j en).2⟩, en.size⟩)) →
        (enemyStep c projs j en).enemy.position =
          ⟨(enemyMovedPos c j en).1, (enemyMovedPos c j en).2⟩)
    ∧ ((en.variant = some EnemyVariant.TANK ∨ en.type = EntityType.BOSS) →
        (enemyStep c projs j en).enemy.position =
          ⟨(enemyMovedPos c j en).1, (enemyMovedPos c j en).2⟩) := by
  refine ⟨by unfold enemyMovedPos; exact clampEnemy_bounds _ _, ?_, ?_⟩
  · intro H
    have Hall : ∀ p ∈ projs ++ (enemyVelOf c j en).2.2,
        ¬(p.isActive = true ∧ p.owner = Owner.PLAYER ∧
          ¬(p.piercing = true ∧ en.id ∈ p.hitIds) ∧
          checkCollision p.body
            ⟨⟨(enemyMovedPos c j en).1, (enemyMovedPos c j en).2⟩, en.size⟩) := by
      intro p hp
      rcases List.mem_append.mp hp with h1 | h2
      · exact H p h1
      · intro hc
        have hq : p.owner = Owner.ENEMY := by
          unfold enemyVelOf at h2
          exact enemyVel_fired_enemy c j en _ _ _ _ p h2
        have h3 := hc.2.1
        rw [hq] at h3
        exact Owner.noConfusion h3
    simp only [enemyStep, hact, not_true, Bool.true_eq_false, if_false, ite_false]
    rw [applyPP_no_hit en _ _ _ _ _ _ Hall]
  · intro hTB
    simp only [enemyStep, hact, not_true, Bool.true_eq_false, if_false, ite_false]
    rw [show (applyPlayerProjectiles en (enemyVelOf c j en).1.1 (enemyVelOf c j en).1.2
        (projs ++ (enemyVelOf c j en).2.2) en.health (enemyMovedPos c j en).1
        (enemyMovedPos c j en).2).2.2 = ((enemyMovedPos c j en).1, (enemyMovedPos c j en).2)
      from applyPP_tank_pos en hTB _ _ _ _ _ _]

/-- C1 witness: an idle basic enemy with no projectiles in flight ends the
step exactly at its clamped position, inside the bounds. -/
theorem enemy_clamp_knockback_witness :
    (enemyStep ctxC1 [] 0 enemyW).enemy.position = ⟨100, 100⟩ ∧
      (50 : ℝ) ≤ 100 ∧ (100 : ℝ) ≤ CANVAS_WIDTH - 50 := by
  have h := (enemy_clamp_knockback ctxC1 [] 0 enemyW rfl).2.1 (by intro p hp; simp at hp)
  have hm : enemyMovedPos ctxC1 0 enemyW = (100, 100) := by
    norm_num [enemyMovedPos, enemyVelOf, enemyDelta, enemyVel, clampEnemy, ctxC1, enemyW,
      enemyC1, ex0, Real.sqrt_zero, CANVAS_WIDTH, CANVAS_HEIGHT]
  rw [h, hm]
  norm_num [CANVAS_WIDTH]

/-- C1 counterexample: in a Playing-state step, a basic enemy chasing the
player from x = 52 moves to the in-bounds x = 53.5, is hit there by a
player tear, and the knockback applied after the wall clamp writes back
x = 44.5 < 50, outside the room bounds rectangle. -/
theorem enemy_knockback_out_of_bounds_cex :
    stC1.gameState = GameState.PLAYING ∧ enemyC1.isActive = true ∧
      (((update ex0 stC1).rooms.getD 0 room0).enemies.getD 0 enemyC1).position.x = 44.5 ∧
      ¬((50 : ℝ) ≤ 44.5) := by
  have h348 : Real.sqrt (121104 : ℝ) = 348 := sqrt_eval (by norm_num) (by norm_num)
  have hstep : (enemyStep ⟨ex0, roomC1, createPlayer, 400, 300⟩ [projC1] 0 enemyC1).enemy.position.x
      = 44.5 := by
    norm_num [enemyStep, enemyVelOf, enemyDelta, enemyMovedPos, enemyVel, clampEnemy,
      enemyC1, projC1, ex0, createPlayer, checkCollision, getDistance, Real.sqrt_zero, h348,
      applyPlayerProjectiles, CANVAS_WIDTH, CANVAS_HEIGHT, PROJECTILE_SIZE, ENEMY_SIZE,
      ENEMY_SPEED, PLAYER_SIZE, Projectile.body]
    rw [if_pos (show ¬EnemyVariant.BASIC = EnemyVariant.TANK ∧
        ¬EntityType.ENEMY = EntityType.BOSS from
      ⟨fun hc => EnemyVariant.noConfusion hc, fun hc => EntityType.noConfusion hc⟩)]
  have hmove : moveDir ex0 = (0, 0) := by
    norm_num [moveDir, ex0, keys0, Real.sqrt_zero]
  have hnext : playerNext ex0 stC1 roomC1 = (400, 300) := by
    norm_num [playerNext, hmove, stC1, createPlayer, roomC1, room0, enemyC1, allInactive,
      clampPlayer, CANVAS_WIDTH, CANVAS_HEIGHT, PLAYER_SIZE, PLAYER_BASE_SPEED]
  have hshoot : shootPhase ex0 stC1 400 300 = ([projC1], 0) := by
    norm_num [shootPhase, ex0, stC1]
  have hswitch : switchTarget roomC1 400 300 = none := by
    norm_num [switchTarget, roomC1, room0, CANVAS_WIDTH, CANVAS_HEIGHT]
  refine ⟨rfl, rfl, ?_, by norm_num⟩
  simp only [update, show stC1.gameState = GameState.PLAYING from rfl,
    show stC1.rooms = [roomC1] from rfl, show stC1.currentRoomIndex = 0 from rfl,
    List.get?, hnext, hshoot, hswitch]
  simp only [show stC1.player = createPlayer from rfl, enemiesFold,
    show roomC1.enemies = [enemyC1] from rfl]
  norm_num [List.set, List.getD, hstep]

/-! ## C3: monotonicity of the cleared flag -/

theorem rooms_set_cleared_mono (rooms : List Room) (idx i : ℕ) (X room : Room)
    (hi : rooms.get? i = some room) (hc : room.cleared = true)
    (hX : ∀ cur, rooms.get? idx = some cur → cur.cleared = true → X.cleared = true) :
    ∃ room2, (rooms.set idx X).get? i = some room2 ∧ room2.cleared = true := by
  by_cases h : idx = i
  · subst h
    have hlt : idx < rooms.length := by
      by_contra hge
      rw [List.get?_eq_none.mpr (le_of_not_lt hge)] at hi
      exact Option.noConfusion hi
    exact ⟨X, List.get?_set_eq_of_lt X hlt, hX room hi hc⟩
  · exact ⟨room, by rw [List.get?_set_ne X rooms h]; exact hi, hc⟩

/-- One frame never turns a cleared flag off: every write to a room's
`cleared` field is either `true` or the room's previous value. -/
theorem update_cleared_mono (e : Externals) (s : SimState) (i : ℕ) (room : Room)
    (hi : s.rooms.get? i = some room) (hc : room.cleared = true) :
    ∃ room2, (update e s).rooms.get? i = some room2 ∧ room2.cleared = true := by
  unfold update
  split
  · exact ⟨room, hi, hc⟩
  · split
    · exact ⟨room, hi, hc⟩
    · rename_i currentRoom heq
      dsimp only
      split
      · split
        · split
          · exact rooms_set_cleared_mono s.rooms s.currentRoomIndex i _ room hi hc
              (fun cur hcur hcc => rfl)
          · exact rooms_set_cleared_mono s.rooms s.currentRoomIndex i _ room hi hc
              (fun cur hcur hcc => rfl)
        · refine rooms_set_cleared_mono s.rooms s.currentRoomIndex i _ room hi hc ?_
          intro cur hcur hcc
          have hcc2 : cur = currentRoom := by
            rw [heq] at hcur
            exact (Option.some.inj hcur).symm
          show currentRoom.cleared = true
          rw [← hcc2]
          exact hcc
      · refine rooms_set_cleared_mono s.rooms s.currentRoomIndex i _ room hi hc ?_
        intro cur hcur hcc
        have hcc2 : cur = currentRoom := by
          rw [heq] at hcur
          exact (Option.some.inj hcur).symm
        show (currentRoom.cleared || _) = true
        rw [← hcc2, hcc]
        exact Bool.true_or _

/-- C3: once a room's cleared flag is true, no sequence of simulation
steps sets it back to false. -/
theorem cleared_monotone (es : List Externals) (s : SimState) (i : ℕ) (room : Room)
    (hi : s.rooms.get? i = some room) (hc : room.cleared = true) :
    ∃ room2, (es.foldl (fun st e => update e st) s).rooms.get? i = some room2 ∧
      room2.cleared = true := by
  induction es generalizing s room with
  | nil => exact ⟨room, hi, hc⟩
  | cons e rest ih =>
    obtain ⟨room2, h2, hc2⟩ := update_cleared_mono e s i room hi hc
    exact ih (update e s) room2 h2 hc2

/-- C3 witness: a one-step sequence starting from a cleared room keeps the
flag true. -/
theorem cleared_monotone_witness :
    ((([ex0].foldl (fun st e => update e st) stC3).rooms.get? 0).getD room0).cleared = true := by
  obtain ⟨r2, h2, hc2⟩ := cleared_monotone [ex0] stC3 0 { room0 with cleared := true } rfl rfl
  rw [h2, Option.getD_some]
  exact hc2

/-! ## C5: aborted room transition -/

theorem findIdx_none_rooms (l : List Room) (gx gy : ℤ)
    (h : ∀ r ∈ l, ¬(r.gridX = gx ∧ r.gridY = gy)) :
    l.findIdx? (fun r => r.gridX == gx && r.gridY == gy) = none := by
  rw [List.findIdx?_eq_none_iff]
  intro r hr
  cases hgx : (r.gridX == gx) with
  | false => simp [hgx]
  | true =>
    have hx : r.gridX = gx := beq_iff_eq.mp hgx
    simp only [hgx, Bool.true_and]
    exact beq_eq_false_iff_ne.mpr (fun hy => (h r hr) ⟨hx, hy⟩)

theorem enemiesFold_inactive (c : EnemyCtx) (es : List Entity)
    (h : ∀ en ∈ es, en.isActive = false) :
    ∀ (projs : List Projectile) (j : ℕ),
      (enemiesFold c projs j es).enemies = es ∧
      (enemiesFold c projs j es).aliased = es ∧
      (enemiesFold c projs j es).projs = projs ∧
      (enemiesFold c projs j es).spawned = [] := by
  induction es with
  | nil => intro projs j; exact ⟨rfl, rfl, rfl, rfl⟩
  | cons en rest ih =>
    intro projs j
    have hstep : enemyStep c projs j en = ⟨en, projs, False, [], False⟩ := by
      unfold enemyStep
      rw [if_pos (by
        intro hcon
        rw [h en (List.mem_cons_self en rest)] at hcon
        exact Bool.false_ne_true hcon)]
    have ihr := ih (fun q hq => h q (List.mem_cons_of_mem en hq)) projs (j + 1)
    refine ⟨?_, ?_, ?_, ?_⟩ <;>
      simp only [enemiesFold, hstep] <;>
      simp [ihr.1, ihr.2.1, ihr.2.2.1, ihr.2.2.2, aliasEnemy]

theorem itemsFold_inactive (player : Entity) (nx ny : ℝ) (its : List Item)
    (h : ∀ it ∈ its, it.isActive = false) :
    itemsFold player nx ny its = (its, []) := by
  induction its with
  | nil => rfl
  | cons it rest ih =>
    simp only [itemsFold]
    rw [if_neg (by
      intro hcon
      rw [h it (List.mem_cons_self it rest)] at hcon
      exact Bool.false_ne_true hcon.1)]
    rw [ih (fun q hq => h q (List.mem_cons_of_mem it hq))]

theorem shootPhase_prefix (e : Externals) (s : SimState) (nx ny : ℝ) :
    (shootPhase e s nx ny).1.take s.projectiles.length = s.projectiles := by
  unfold shootPhase
  dsimp only
  split_ifs <;> simp [List.take_left, List.take_length]

theorem allInactive_of_all (es : List Entity) (h : ∀ en ∈ es, en.isActive = false) :
    allInactive es = true := by
  unfold allInactive
  rw [List.all_eq_true]
  intro en hen
  rw [h en hen]
  rfl

/-- C5 (amended): if a room transition is triggered from a room that
counts as cleared (as in any reachable cleared room, with no active
enemies and no active items) but no room exists at the target grid
coordinate, the step leaves the current room index, the player state and
the projectile list unchanged and leaves every room unchanged — except the
vacated room, whose `cleared` flag is set to true before the failed target
lookup, a mutation on the shared room object that the committed state
observes. -/
theorem transition_missing_target_noop (e : Externals) (s : SimState) (room : Room)
    (t : SwitchTarget)
    (hg : s.gameState = GameState.PLAYING)
    (hcur : s.rooms.get? s.currentRoomIndex = some room)
    (hinact : ∀ en ∈ room.enemies, en.isActive = false)
    (hitems : ∀ it ∈ room.items, it.isActive = false)
    (hsw : switchTarget room (playerNext e s room).1 (playerNext e s room).2 = some t)
    (hmiss : ∀ r ∈ s.rooms, ¬(r.gridX = t.gx ∧ r.gridY = t.gy)) :
    (update e s).currentRoomIndex = s.currentRoomIndex
    ∧ (update e s).player = s.player
    ∧ (update e s).projectiles = s.projectiles
    ∧ (update e s).rooms = s.rooms.set s.currentRoomIndex { room with cleared := true } := by
  have hef := enemiesFold_inactive ⟨e, room, s.player, (playerNext e s room).1,
    (playerNext e s room).2⟩ room.enemies hinact
    (shootPhase e s (playerNext e s room).1 (playerNext e s room).2).1 0
  have hif := itemsFold_inactive s.player (playerNext e s room).1 (playerNext e s room).2
    room.items hitems
  have hall := allInactive_of_all room.enemies hinact
  have hmiss2 : ∀ r ∈ s.rooms.set s.currentRoomIndex { room with cleared := true },
      ¬(r.gridX = t.gx ∧ r.gridY = t.gy) := by
    intro r hr
    rcases List.mem_or_eq_of_mem_set hr with hmem | rfl
    · exact hmiss r hmem
    · exact hmiss room (List.get?_mem hcur)
  have hfind := findIdx_none_rooms (s.rooms.set s.currentRoomIndex { room with cleared := true })
    t.gx t.gy hmiss2
  simp only [update, hg, ne_eq, not_true_eq_false, if_false, hcur, hsw, hef.1, hef.2.1,
    hef.2.2.1, hef.2.2.2, hif, hall, Bool.or_true, if_true, List.append_nil, List.foldl_nil,
    ite_true, ite_false, hfind]
  refine ⟨?_, ?_, ?_, ?_⟩ <;>
    first
      | trivial
      | exact shootPhase_prefix e s _ _

/-- C5 counterexample: with the room counting as cleared (no enemies), a
triggered upward transition whose target room does not exist still flips
the vacated room's `cleared` flag from false to true, so the step is not a
complete no-op on the rooms. -/
theorem transition_missing_target_cex :
    stC5.gameState = GameState.PLAYING ∧
      (stC5.rooms.getD 0 room0).cleared = false ∧
      ((update exC5 stC5).rooms.getD 0 room0).cleared = true ∧
      (update exC5 stC5).currentRoomIndex = stC5.currentRoomIndex ∧
      (update exC5 stC5).player = stC5.player ∧
      (update exC5 stC5).projectiles = stC5.projectiles := by
  have h := transition_missing_target_noop exC5 stC5 roomC5 ⟨0, -1, 400, 520⟩ rfl rfl
    (by intro en hen; exact absurd hen (by simp [roomC5, room0]))
    (by intro it hit; exact absurd hit (by simp [roomC5, room0]))
    ?_ ?_
  · refine ⟨rfl, rfl, ?_, h.1, h.2.1, h.2.2.1⟩
    rw [h.2.2.2]
    rfl
  · have hmove : moveDir exC5 = (0, -1) := by
      norm_num [moveDir, exC5, ex0, keys0, Real.sqrt_one]
    have hnext : playerNext exC5 stC5 roomC5 = (400, 16.5) := by
      norm_num [playerNext, hmove, stC5, createPlayer, roomC5, room0, allInactive,
        clampPlayer, CANVAS_WIDTH, CANVAS_HEIGHT, PLAYER_SIZE, PLAYER_BASE_SPEED]
    rw [hnext]
    norm_num [switchTarget, roomC5, room0, CANVAS_WIDTH, CANVAS_HEIGHT]
  · intro r hr
    have : r = roomC5 := List.mem_singleton.mp hr
    subst this
    intro hcon
    exact absurd hcon.2 (by norm_num [roomC5, room0])

/-- C5 witness: the aborted transition of the counterexample state indeed
leaves index, player, projectiles and (up to the cleared flag) the rooms
unchanged. -/
theorem transition_missing_target_noop_witness :
    (update exC5 stC5).currentRoomIndex = stC5.currentRoomIndex
    ∧ (update exC5 stC5).player = stC5.player
    ∧ (update exC5 stC5).projectiles = stC5.projectiles
    ∧ (update exC5 stC5).rooms =
        stC5.rooms.set stC5.currentRoomIndex { roomC5 with cleared := true } := by
  refine transition_missing_target_noop exC5 stC5 roomC5 ⟨0, -1, 400, 520⟩ rfl rfl
    (by intro en hen; exact absurd hen (by simp [roomC5, room0]))
    (by intro it hit; exact absurd hit (by simp [roomC5, room0]))
    ?_ ?_
  · have hmove : moveDir exC5 = (0, -1) := by
      norm_num [moveDir, exC5, ex0, keys0, Real.sqrt_one]
    have hnext : playerNext exC5 stC5 roomC5 = (400, 16.5) := by
      norm_num [playerNext, hmove, stC5, createPlayer, roomC5, room0, allInactive,
        clampPlayer, CANVAS_WIDTH, CANVAS_HEIGHT, PLAYER_SIZE, PLAYER_BASE_SPEED]
    rw [hnext]
    norm_num [switchTarget, roomC5, room0, CANVAS_WIDTH, CANVAS_HEIGHT]
  · intro r hr
    have : r = roomC5 := List.mem_singleton.mp hr
    subst this
    intro hcon
    exact absurd hcon.2 (by norm_num [roomC5, room0])

/-! ## C7: scenario A, one frame of pure eastward movement -/

/-- C7: a player at the room centre (400, 300) with speed 3.5, size 30 and
combined move input (1,0) — joystick (1,0), no WASD keys — ends the frame
at (400 + 3.5, 300) with facing 6 (the code's east-sector index), for
every value of `dt` and of the remaining inputs: the per-step displacement
is direction × speed and independent of `dt`. -/
theorem scenarioA_player_step (e : Externals) (s : SimState) (room : Room)
    (hg : s.gameState = GameState.PLAYING)
    (hcur : s.rooms.get? s.currentRoomIndex = some room)
    (hpos : s.player.position = ⟨400, 300⟩)
    (hspeed : s.player.speed = 3.5)
    (hsize : s.player.size = 30)
    (hmove : e.moveInput = ⟨1, 0⟩)
    (hkW : e.keys.keyW = false) (hkA : e.keys.keyA = false)
    (hkS : e.keys.keyS = false) (hkD : e.keys.keyD = false) :
    (update e s).player.position = ⟨400 + 3.5, 300⟩ ∧ (update e s).player.facing = 6 := by
  have hmd : moveDir e = (1, 0) := by
    norm_num [moveDir, hmove, hkW, hkA, hkS, hkD, Real.sqrt_one]
  have hnp : playerNext e s room = (400 + 3.5, 300) := by
    norm_num [playerNext, hmd, hpos, hspeed, hsize, clampPlayer, CANVAS_WIDTH, CANVAS_HEIGHT]
  have hsw : switchTarget room (400 + 3.5 : ℝ) 300 = none := by
    norm_num [switchTarget, CANVAS_WIDTH, CANVAS_HEIGHT]
  have hface : getFacingFromVelocity 1 0 s.player.facing = 6 := getFacing_east _
  simp only [update, hg, ne_eq, not_true_eq_false, if_false, ite_false, hcur, hnp, hsw, hmd,
    hface]
  refine ⟨?_, ?_⟩ <;> trivial

/-- C7 witness: the fresh player in an empty room with joystick (1,0). -/
theorem scenarioA_player_step_witness :
    (update exC7 stC7).player.position = ⟨400 + 3.5, 300⟩ ∧
      (update exC7 stC7).player.facing = 6 :=
  scenarioA_player_step exC7 stC7 room0 rfl rfl
    (by norm_num [stC7, createPlayer, CANVAS_WIDTH, CANVAS_HEIGHT])
    (by norm_num [stC7, createPlayer, PLAYER_BASE_SPEED])
    (by norm_num [stC7, createPlayer, PLAYER_SIZE])
    rfl rfl rfl rfl rfl

end

end TBOS
